import Mathlib

/-!
Verification development for the HR mock-interview web application.

The repository is a Next.js application whose persistent state lives in a
relational store accessed through an ORM (Prisma), and whose request handlers
are thin glue over that store plus a hosted generative-language model.

Shallow embedding conventions used throughout this file:
- the data store is a record of lists of rows (one list per table);
- each HTTP handler is a pure function from a store, a session, the parsed
  request inputs, and the outcomes of the external generative-model calls
  (passed in as oracle arguments, since the model is an external service)
  to a response paired with the successor store;
- JavaScript falsiness of the values the code tests with !x and x || d is
  modelled explicitly (absent or empty string, absent or zero number);
- machine numbers are modelled as Int (scores, ids) and Rat (the single
  division in the results page); Math.floor on halves and three-quarter
  products of integers is exact integer arithmetic.
-/

namespace HRApp

/-! ## JavaScript value helpers -/

/-- Evaluation of the JavaScript expression x || d for an optional string:
the default is used when x is absent or the empty string (falsy). -/
def jsOrStr (v : Option String) (d : String) : String :=
  match v with
  | none => d
  | some s => if s = "" then d else s

/-- Truthiness of an optional string under the checks !x the handlers use. -/
def truthyStr (v : Option String) : Bool :=
  match v with
  | none => false
  | some s => s != ""

/-- Evaluation of the JavaScript expression x || d for an optional number:
the default is used when x is absent or zero (falsy). -/
def jsOrInt (v : Option Int) (d : Int) : Int :=
  match v with
  | none => d
  | some n => if n = 0 then d else n

/-- Truthiness of an optional number under the checks !x the handlers use. -/
def truthyInt (v : Option Int) : Bool :=
  match v with
  | none => false
  | some n => n != 0

/-- Evaluation of x || null for an optional string value: an empty string
collapses to null. -/
def jsStrOrNull (v : Option String) : Option String :=
  match v with
  | none => none
  | some s => if s = "" then none else some s

/-! ## The answer-analysis parser

Embedding of parseAnalysisResponse from src/app/api/hrRound/answer/route.ts
(lines 105-160), together with the regular-expression extractions it runs
over the free-form model output.  Strings are processed as lists of
characters.  The five patterns are

  Score:\s*(\d+)           case-insensitive
  Feedback:\s*([^-]+)      case-insensitive
  Key Points:\s*([^\n]+)   case-insensitive
  Voice Tone:\s*([^\n]+)   case-insensitive
  Confidence:\s*([^\n]+)   case-insensitive

A JavaScript match scans left to right for the first start position at which
the whole pattern matches; at a fixed start position the greedy star over
whitespace backtracks from the longest whitespace run downwards until the
one-or-more group can match.  Both behaviours are reproduced literally below.
-/

/-- The ASCII part of the JavaScript whitespace class backslash-s; the model
output handled here is ASCII text. -/
def isJsSpace (c : Char) : Bool :=
  c == ' ' || c == '\t' || c == '\n' || c == '\r' || c == '\x0b' || c == '\x0c'

/-- Case-insensitive match of a (lowercase) literal pattern against a prefix
of the input, returning the remaining input on success. -/
def matchCI : List Char → List Char → Option (List Char)
  | [], rest => some rest
  | _ :: _, [] => none
  | p :: ps, c :: cs => if c.toLower == p then matchCI ps cs else none

/-- Numeric value of a digit string, as parseInt with base 10 computes it. -/
def natOfDigits (ds : List Char) : Nat :=
  ds.foldl (fun n c => n * 10 + (c.toNat - 48)) 0

/-- Attempt of the one-or-more capture group at offset k of the input: the
group matches when the character at k satisfies ok, and then captures the
maximal run of ok characters. -/
def capAt (r : List Char) (ok : Char → Bool) (k : Nat) : Option (List Char) :=
  match r.drop k with
  | [] => none
  | c :: cs => if ok c then some ((c :: cs).takeWhile ok) else none

/-- Backtracking of the greedy whitespace star: offsets are tried from the
end of the maximal whitespace run downwards to zero. -/
def btAux (r : List Char) (ok : Char → Bool) : Nat → Option (List Char)
  | 0 => capAt r ok 0
  | k + 1 =>
    match capAt r ok (k + 1) with
    | some cap => some cap
    | none => btAux r ok k

/-- Match of the tail pattern whitespace-star followed by a one-or-more
capture group, with the backtracking a JavaScript engine performs. -/
def matchAfterLabel (ok : Char → Bool) (r : List Char) : Option (List Char) :=
  btAux r ok (r.takeWhile isJsSpace).length

/-- Left-to-right scan for the first start position at which a positional
matcher succeeds. -/
def scan (f : List Char → Option α) : List Char → Option α
  | [] => f []
  | c :: cs =>
    match f (c :: cs) with
    | some x => some x
    | none => scan f cs

/-- Positional matcher for the score pattern: after the label and the
whitespace the digit group must match.  Whitespace characters are not
digits, so the greedy star never has to backtrack here. -/
def tryScoreAt (s : List Char) : Option Nat :=
  match matchCI "score:".data s with
  | none => none
  | some r =>
    let ds := (r.dropWhile isJsSpace).takeWhile Char.isDigit
    if ds.isEmpty then none else some (natOfDigits ds)

/-- First match of the pattern Score followed by digits in the text. -/
def extractScore (s : List Char) : Option Nat :=
  scan tryScoreAt s

/-- Positional matcher for a labelled capture pattern. -/
def tryCaptureAt (label : List Char) (ok : Char → Bool) (s : List Char) :
    Option (List Char) :=
  match matchCI label s with
  | none => none
  | some r => matchAfterLabel ok r

/-- First match of a labelled capture pattern in the text. -/
def extractAfter (label : List Char) (ok : Char → Bool) (s : List Char) :
    Option (List Char) :=
  scan (tryCaptureAt label ok) s

/-- Capture of the feedback pattern: everything up to a dash. -/
def extractFeedback (s : List Char) : Option (List Char) :=
  extractAfter "feedback:".data (fun c => c != '-') s

/-- Capture of the key-points pattern: everything up to a newline. -/
def extractKeyPoints (s : List Char) : Option (List Char) :=
  extractAfter "key points:".data (fun c => c != '\n') s

/-- Capture of the voice-tone pattern: everything up to a newline. -/
def extractVoiceTone (s : List Char) : Option (List Char) :=
  extractAfter "voice tone:".data (fun c => c != '\n') s

/-- Capture of the confidence pattern: everything up to a newline. -/
def extractConfidence (s : List Char) : Option (List Char) :=
  extractAfter "confidence:".data (fun c => c != '\n') s

/-- String.prototype.trim: whitespace removed from both ends. -/
def jsTrim (l : List Char) : List Char :=
  ((l.dropWhile isJsSpace).reverse.dropWhile isJsSpace).reverse

/-- Key-points postprocessing: the capture is split on commas (the capture
group excludes newlines, so the \n alternative of the split never fires),
each piece is trimmed, and empty pieces are dropped (filter Boolean). -/
def splitKeyPoints (l : List Char) : List String :=
  ((l.splitOn ',').map jsTrim).filterMap
    (fun p => if p.isEmpty then none else some (String.mk p))

/-- Result shape of parseAnalysisResponse. -/
structure Analysis where
  score : Int
  evaluationFeedback : String
  matchedKeyPoints : List String
  voiceTone : Option String
  confidence : Option String
deriving DecidableEq, Repr

/-- Embedding of parseAnalysisResponse (answer/route.ts lines 105-160).
The guard on the analysis text is a JavaScript falsiness test, so a null
text and the empty string both yield the fixed fallback record; otherwise
each field is filled from its first regex match and keeps its default when
the pattern is absent.  Math.floor of maxScore over two is floor
division. -/
def parseAnalysisResponse (analysisText : Option String) (maxScore : Int) :
    Analysis :=
  match analysisText with
  | none =>
    { score := Int.fdiv maxScore 2
      evaluationFeedback := "Unable to generate detailed analysis."
      matchedKeyPoints := []
      voiceTone := none
      confidence := none }
  | some t =>
    if t = "" then
      { score := Int.fdiv maxScore 2
        evaluationFeedback := "Unable to generate detailed analysis."
        matchedKeyPoints := []
        voiceTone := none
        confidence := none }
    else
    let cs := t.data
    { score :=
        match extractScore cs with
        | some n => min (Int.ofNat n) maxScore
        | none => Int.fdiv maxScore 2
      evaluationFeedback :=
        match extractFeedback cs with
        | some cap => String.mk (jsTrim cap)
        | none => "No specific feedback provided."
      matchedKeyPoints :=
        match extractKeyPoints cs with
        | some cap => splitKeyPoints cap
        | none => []
      voiceTone := (extractVoiceTone cs).map (fun cap => String.mk (jsTrim cap))
      confidence := (extractConfidence cs).map (fun cap => String.mk (jsTrim cap)) }

/-! ## The data model

Rows of the relational store, as the handlers create and read them.  Ids are
modelled as natural numbers; Clerk user ids are strings.  Fields the live
code may leave unset at creation (videoUrl, passScore, timeLimit of a
follow-up created by the answer route, score of an answer created by the
dead answer-submission POST) are optional.
-/

abbrev Id := Nat
abbrev UserId := String

/-- A row of the user table; only the fields the handlers read. -/
structure User where
  id : UserId
  resume : Option String
deriving DecidableEq, Repr

/-- A row of the hRInterview table. -/
structure HRInterview where
  id : Id
  userId : UserId
  jobPosition : String
  jobDescription : String
  jobExperience : String
  skills : List String
  difficultyLevel : String
  resumeUrl : Option String
  passScore : Option Int
  totalScore : Option Int
deriving DecidableEq, Repr

/-- A row of the hRQuestion table (a main question). -/
structure HRQuestion where
  id : Id
  hrInterviewId : Id
  text : String
  category : String
  expectedKeyPoints : List String
  maxScore : Option Int
  timeLimit : Option Int
deriving DecidableEq, Repr

/-- A row of the hRFollowUpQuestion table. -/
structure HRFollowUpQuestion where
  id : Id
  mainQuestionId : Id
  text : String
  category : String
  expectedKeyPoints : List String
  maxScore : Option Int
  timeLimit : Option Int
deriving DecidableEq, Repr

/-- A row of the hRUserAnswer table. -/
structure HRUserAnswer where
  id : Id
  hrQuestionId : Option Id
  hrFollowUpQuestionId : Option Id
  userId : UserId
  userAnswer : String
  videoUrl : Option String
  score : Option Int
  evaluationFeedback : Option String
  matchedKeyPoints : List String
  voiceTone : Option String
  confidence : Option String
deriving DecidableEq, Repr

/-- The whole data store. -/
structure Store where
  users : List User
  interviews : List HRInterview
  questions : List HRQuestion
  followUps : List HRFollowUpQuestion
  answers : List HRUserAnswer
deriving DecidableEq, Repr

/-- Fresh id for an insert: one past the largest id in use in the table. -/
def freshId (ids : List Id) : Id :=
  ids.foldr max 0 + 1

/-! Store combinators: every write a handler performs goes through one of
these, so that frame reasoning is uniform. -/

/-- Insert of an interview row. -/
def addInterview (s : Store) (i : HRInterview) : Store :=
  { s with interviews := s.interviews ++ [i] }

/-- Insert of a main-question row. -/
def addQuestion (s : Store) (q : HRQuestion) : Store :=
  { s with questions := s.questions ++ [q] }

/-- Insert of a follow-up-question row. -/
def addFollowUp (s : Store) (f : HRFollowUpQuestion) : Store :=
  { s with followUps := s.followUps ++ [f] }

/-- Insert of an answer row. -/
def addAnswer (s : Store) (a : HRUserAnswer) : Store :=
  { s with answers := s.answers ++ [a] }

/-- Row-wise rewrite of the answer table (an ORM update). -/
def mapAnswers (s : Store) (g : HRUserAnswer → HRUserAnswer) : Store :=
  { s with answers := s.answers.map g }

/-- Row-wise rewrite of the interview table (an ORM update). -/
def mapInterviews (s : Store) (g : HRInterview → HRInterview) : Store :=
  { s with interviews := s.interviews.map g }

@[simp] theorem addInterview_users (s : Store) (i : HRInterview) :
    (addInterview s i).users = s.users := rfl
@[simp] theorem addInterview_interviews (s : Store) (i : HRInterview) :
    (addInterview s i).interviews = s.interviews ++ [i] := rfl
@[simp] theorem addInterview_questions (s : Store) (i : HRInterview) :
    (addInterview s i).questions = s.questions := rfl
@[simp] theorem addInterview_followUps (s : Store) (i : HRInterview) :
    (addInterview s i).followUps = s.followUps := rfl
@[simp] theorem addInterview_answers (s : Store) (i : HRInterview) :
    (addInterview s i).answers = s.answers := rfl

@[simp] theorem addQuestion_users (s : Store) (q : HRQuestion) :
    (addQuestion s q).users = s.users := rfl
@[simp] theorem addQuestion_interviews (s : Store) (q : HRQuestion) :
    (addQuestion s q).interviews = s.interviews := rfl
@[simp] theorem addQuestion_questions (s : Store) (q : HRQuestion) :
    (addQuestion s q).questions = s.questions ++ [q] := rfl
@[simp] theorem addQuestion_followUps (s : Store) (q : HRQuestion) :
    (addQuestion s q).followUps = s.followUps := rfl
@[simp] theorem addQuestion_answers (s : Store) (q : HRQuestion) :
    (addQuestion s q).answers = s.answers := rfl

@[simp] theorem addFollowUp_users (s : Store) (f : HRFollowUpQuestion) :
    (addFollowUp s f).users = s.users := rfl
@[simp] theorem addFollowUp_interviews (s : Store) (f : HRFollowUpQuestion) :
    (addFollowUp s f).interviews = s.interviews := rfl
@[simp] theorem addFollowUp_questions (s : Store) (f : HRFollowUpQuestion) :
    (addFollowUp s f).questions = s.questions := rfl
@[simp] theorem addFollowUp_followUps (s : Store) (f : HRFollowUpQuestion) :
    (addFollowUp s f).followUps = s.followUps ++ [f] := rfl
@[simp] theorem addFollowUp_answers (s : Store) (f : HRFollowUpQuestion) :
    (addFollowUp s f).answers = s.answers := rfl

@[simp] theorem addAnswer_users (s : Store) (a : HRUserAnswer) :
    (addAnswer s a).users = s.users := rfl
@[simp] theorem addAnswer_interviews (s : Store) (a : HRUserAnswer) :
    (addAnswer s a).interviews = s.interviews := rfl
@[simp] theorem addAnswer_questions (s : Store) (a : HRUserAnswer) :
    (addAnswer s a).questions = s.questions := rfl
@[simp] theorem addAnswer_followUps (s : Store) (a : HRUserAnswer) :
    (addAnswer s a).followUps = s.followUps := rfl
@[simp] theorem addAnswer_answers (s : Store) (a : HRUserAnswer) :
    (addAnswer s a).answers = s.answers ++ [a] := rfl

@[simp] theorem mapAnswers_users (s : Store) (g : HRUserAnswer → HRUserAnswer) :
    (mapAnswers s g).users = s.users := rfl
@[simp] theorem mapAnswers_interviews (s : Store) (g : HRUserAnswer → HRUserAnswer) :
    (mapAnswers s g).interviews = s.interviews := rfl
@[simp] theorem mapAnswers_questions (s : Store) (g : HRUserAnswer → HRUserAnswer) :
    (mapAnswers s g).questions = s.questions := rfl
@[simp] theorem mapAnswers_followUps (s : Store) (g : HRUserAnswer → HRUserAnswer) :
    (mapAnswers s g).followUps = s.followUps := rfl
@[simp] theorem mapAnswers_answers (s : Store) (g : HRUserAnswer → HRUserAnswer) :
    (mapAnswers s g).answers = s.answers.map g := rfl

@[simp] theorem mapInterviews_interviews (s : Store) (g : HRInterview → HRInterview) :
    (mapInterviews s g).interviews = s.interviews.map g := rfl
@[simp] theorem mapInterviews_questions (s : Store) (g : HRInterview → HRInterview) :
    (mapInterviews s g).questions = s.questions := rfl
@[simp] theorem mapInterviews_followUps (s : Store) (g : HRInterview → HRInterview) :
    (mapInterviews s g).followUps = s.followUps := rfl
@[simp] theorem mapInterviews_answers (s : Store) (g : HRInterview → HRInterview) :
    (mapInterviews s g).answers = s.answers := rfl

/-! ## HTTP responses -/

/-- JSON bodies the handlers return, by shape. -/
inductive Payload where
  | empty
  | err (msg : String)
  | interviewData (i : HRInterview)
  | interviewList (l : List HRInterview)
  | questionData (q : HRQuestion) (followUps : List HRFollowUpQuestion)
      (answer : Option HRUserAnswer)
  | followUpData (f : HRFollowUpQuestion) (answers : List HRUserAnswer)
  | followUpList (l : List HRFollowUpQuestion)
  | answerData (a : HRUserAnswer)
  | mainAnswerResult (ans : HRUserAnswer) (analysis : Analysis)
      (next : Option HRFollowUpQuestion)
  | followUpAnswerResult (ans : HRUserAnswer) (analysis : Analysis)
      (f : HRFollowUpQuestion)
  | createdInterview (i : HRInterview)
  | qaList (l : List (String × Option String))
  | deleted
deriving DecidableEq, Repr

/-- An HTTP response: status code and JSON body. -/
structure Response where
  status : Nat
  payload : Payload
deriving DecidableEq, Repr

/-! ## Sessions and the un-awaited auth bug

Handlers that run const authResult = await auth() observe the session as it
is.  Four handlers instead destructure the return value of auth() without
awaiting it; auth() returns a Promise, and destructuring a pending Promise
yields an undefined userId whatever the session holds. -/

/-- Result of destructuring auth() without await: userId is always
undefined. -/
def unawaitedUserId (_session : Option UserId) : Option UserId := none

/-- Owner of the interview a main question belongs to, through the relation
includes the handlers use.  A missing relation row makes the handler throw
inside its try block (reported as a 500 by the catch-all). -/
def interviewOwnerOfQuestion (s : Store) (qid : Id) : Option UserId :=
  (s.questions.find? (fun q => q.id == qid)).bind fun q =>
    (s.interviews.find? (fun i => i.id == q.hrInterviewId)).map fun i => i.userId

/-- Number of follow-up rows attached to a main question. -/
def followUpCount (s : Store) (qid : Id) : Nat :=
  (s.followUps.filter (fun f => f.mainQuestionId == qid)).length

/-- The fixed follow-up cap of src/unnamed/part_001 line 71. -/
def MAX_FOLLOWUP_QUESTIONS : Nat := 2

/-! ## Handlers of src/unnamed/part_000 (interview CRUD) -/

/-- Request body of the part_000 interview-creation POST. -/
structure Part000Body where
  jobPosition : Option String
  jobDescription : Option String
  jobExperience : Option String
  skills : Option (List String)
  difficultyLevel : Option String
  resumeUrl : Option String
  passScore : Option Int
deriving DecidableEq, Repr

/-- Field-wise interview update body for the part_000 PATCH (the handler
passes the parsed body straight to the ORM update; absent fields are left
unchanged). -/
structure InterviewPatch where
  jobPosition : Option String
  jobDescription : Option String
  passScore : Option Int
  totalScore : Option Int
deriving DecidableEq, Repr

/-- Application of an interview patch to a row. -/
def applyInterviewPatch (p : InterviewPatch) (i : HRInterview) : HRInterview :=
  { i with
    jobPosition := p.jobPosition.getD i.jobPosition
    jobDescription := p.jobDescription.getD i.jobDescription
    passScore := match p.passScore with | none => i.passScore | some v => some v
    totalScore := match p.totalScore with | none => i.totalScore | some v => some v }

/-- GET of part_000 (lines 5-54): fetch one interview of the caller, or the
list of the caller interviews.  The single-interview lookup filters by id
and owner together, so a non-owner request observes a 404. -/
def part000Get (s : Store) (session : Option UserId) (interviewId : Option Id) :
    Response × Store :=
  match session with
  | none => (⟨401, .err "Unauthorized"⟩, s)
  | some userId =>
    match interviewId with
    | some iid =>
      match s.interviews.find? (fun i => i.id == iid && i.userId == userId) with
      | none => (⟨404, .err "HR Interview not found"⟩, s)
      | some i => (⟨200, .interviewData i⟩, s)
    | none =>
      (⟨200, .interviewList (s.interviews.filter (fun i => i.userId == userId))⟩, s)

/-- Cascading removal of an interview and its dependents.  Modelled from the
spec: the Prisma schema is not among the sources; the spec states interview
deletion cascades.  The code path is unreachable because the DELETE handler
never holds a userId (see unawaitedUserId). -/
def cascadeDelete (s : Store) (iid : Id) (userId : UserId) : Store :=
  let goneI := fun (i : HRInterview) => i.id == iid && i.userId == userId
  let removedI := s.interviews.filter goneI
  let goneQ := fun (q : HRQuestion) => removedI.any (fun i => i.id == q.hrInterviewId)
  let removedQ := s.questions.filter goneQ
  let goneF := fun (f : HRFollowUpQuestion) =>
    removedQ.any (fun q => q.id == f.mainQuestionId)
  let removedF := s.followUps.filter goneF
  let goneA := fun (a : HRUserAnswer) =>
    removedQ.any (fun q => a.hrQuestionId == some q.id) ||
    removedF.any (fun f => a.hrFollowUpQuestionId == some f.id)
  { s with
    interviews := s.interviews.filter (fun i => !goneI i)
    questions := s.questions.filter (fun q => !goneQ q)
    followUps := s.followUps.filter (fun f => !goneF f)
    answers := s.answers.filter (fun a => !goneA a) }

/-- DELETE of part_000 (lines 56-84).  The handler destructures auth()
without awaiting it, so the userId check fails on every request. -/
def part000Delete (s : Store) (session : Option UserId) (interviewId : Option Id) :
    Response × Store :=
  match unawaitedUserId session with
  | none => (⟨401, .err "Unauthorized"⟩, s)
  | some userId =>
    match interviewId with
    | none => (⟨400, .err "HR Interview ID is required"⟩, s)
    | some iid => (⟨200, .deleted⟩, cascadeDelete s iid userId)

/-- POST of part_000 (lines 87-125): interview creation with no field
validation.  The handler destructures auth() without awaiting it, so it
returns 401 on every request. -/
def part000Post (s : Store) (session : Option UserId) (body : Part000Body) :
    Response × Store :=
  match unawaitedUserId session with
  | none => (⟨401, .err "Unauthorized"⟩, s)
  | some userId =>
    let i : HRInterview :=
      { id := freshId (s.interviews.map (fun i => i.id))
        userId := userId
        jobPosition := body.jobPosition.getD ""
        jobDescription := body.jobDescription.getD ""
        jobExperience := body.jobExperience.getD ""
        skills := body.skills.getD []
        difficultyLevel := body.difficultyLevel.getD ""
        resumeUrl := body.resumeUrl
        passScore := body.passScore
        totalScore := some 0 }
    (⟨200, .interviewData i⟩, addInterview s i)

/-- PATCH of part_000 (lines 128-156): interview update.  The handler
destructures auth() without awaiting it, so it returns 401 on every
request; an ORM update whose filter matches no row would throw and be
reported as 500. -/
def part000Patch (s : Store) (session : Option UserId) (interviewId : Option Id)
    (patch : InterviewPatch) : Response × Store :=
  match unawaitedUserId session with
  | none => (⟨401, .err "Unauthorized"⟩, s)
  | some userId =>
    match interviewId with
    | none => (⟨400, .err "HR Interview ID is required"⟩, s)
    | some iid =>
      match s.interviews.find? (fun i => i.id == iid && i.userId == userId) with
      | none => (⟨500, .err "Failed to update interview"⟩, s)
      | some i0 =>
        (⟨200, .interviewData (applyInterviewPatch patch i0)⟩,
         mapInterviews s (fun i =>
           if i.id == iid && i.userId == userId then applyInterviewPatch patch i else i))

/-! ## Handlers of src/unnamed/part_001 -/

/-- First GET of part_001 (lines 4-61): question texts with the matching
answers for an interview.  The handler performs no authentication and no
ownership check at all. -/
def part001AnswersGet (s : Store) (interviewId : Option Id) : Response × Store :=
  match interviewId with
  | none => (⟨400, .err "Interview Id is required"⟩, s)
  | some iid =>
    let questions := s.questions.filter (fun q => q.hrInterviewId == iid)
    let questionIds := questions.map (fun q => q.id)
    let userAnswers := s.answers.filter
      (fun a => questionIds.any (fun qid => a.hrQuestionId == some qid))
    let response := questions.map (fun q =>
      (q.text,
       jsStrOrNull ((userAnswers.find?
         (fun a => a.hrQuestionId == some q.id)).map (fun a => a.userAnswer))))
    (⟨200, .qaList response⟩, s)

/-- Second GET of part_001 (lines 73-178): fetch an interview with its
questions; with a questionId and generateFollowUp=true, and fewer than
MAX_FOLLOWUP_QUESTIONS follow-ups, generate and persist one more follow-up.
The interview lookup has no owner filter and there is no ownership check.
The ai argument is the generative-model outcome (none = the call threw,
reported as 500 by the catch-all). -/
def part001QuestionsGet (s : Store) (session : Option UserId) (interviewId : Id)
    (questionId : Option Id) (generateFollowUp : Bool) (ai : Option String) :
    Response × Store :=
  match session with
  | none => (⟨401, .err "Unauthorized"⟩, s)
  | some _ =>
    match s.interviews.find? (fun i => i.id == interviewId) with
    | none => (⟨404, .err "Interview not found"⟩, s)
    | some i =>
      match questionId with
      | none => (⟨200, .interviewData i⟩, s)
      | some qid =>
        match s.questions.find? (fun q => q.hrInterviewId == i.id && q.id == qid) with
        | none => (⟨404, .err "Question not found"⟩, s)
        | some q =>
          let fus := s.followUps.filter (fun f => f.mainQuestionId == q.id)
          let ans := s.answers.find? (fun a => a.hrQuestionId == some q.id)
          if generateFollowUp && decide (fus.length < MAX_FOLLOWUP_QUESTIONS) then
            match ans with
            | none =>
              (⟨400, .err "Cannot generate follow-up without a user answer"⟩, s)
            | some userAnswer =>
              match ai with
              | none => (⟨500, .err "Failed to fetch questions"⟩, s)
              | some followUpText =>
                let fu : HRFollowUpQuestion :=
                  { id := freshId (s.followUps.map (fun f => f.id))
                    mainQuestionId := qid
                    text := followUpText
                    category := q.category
                    expectedKeyPoints := []
                    maxScore := some (Int.fdiv (q.maxScore.getD 10) 2)
                    timeLimit := some (Int.fdiv (3 * (q.timeLimit.getD 120)) 4) }
                (⟨200, .questionData q (fus ++ [fu]) (some userAnswer)⟩,
                 addFollowUp s fu)
          else
            (⟨200, .questionData q fus ans⟩, s)

/-- POST of part_001 (lines 181-260): generate and persist one follow-up for
a question, refusing when the cap is already reached.  The ai argument is
the generative-model outcome (none = the call threw, reported as 500). -/
def part001FollowUpPost (s : Store) (session : Option UserId) (interviewId : Id)
    (questionId : Option Id) (userAnswer : Option String) (ai : Option String) :
    Response × Store :=
  match session with
  | none => (⟨401, .err "Unauthorized"⟩, s)
  | some _ =>
    if !(truthyInt (questionId.map Int.ofNat)) || !(truthyStr userAnswer) then
      (⟨400, .err "Missing required fields"⟩, s)
    else
      match questionId with
      | none => (⟨400, .err "Missing required fields"⟩, s)
      | some qid =>
        match s.questions.find? (fun q => q.id == qid && q.hrInterviewId == interviewId) with
        | none => (⟨404, .err "Question not found"⟩, s)
        | some q =>
          if decide (followUpCount s qid ≥ MAX_FOLLOWUP_QUESTIONS) then
            (⟨400, .err "Maximum number of follow-up questions reached"⟩, s)
          else
            match ai with
            | none => (⟨500, .err "Failed to generate follow-up question"⟩, s)
            | some followUpText =>
              let fu : HRFollowUpQuestion :=
                { id := freshId (s.followUps.map (fun f => f.id))
                  mainQuestionId := qid
                  text := followUpText
                  category := q.category
                  expectedKeyPoints := []
                  maxScore := some (Int.fdiv (q.maxScore.getD 10) 2)
                  timeLimit := some (Int.fdiv (3 * (q.timeLimit.getD 120)) 4) }
              (⟨200, .followUpData fu []⟩, addFollowUp s fu)

/-! ## Handlers of src/app/api/hrRound/route.ts -/

/-- Request body of the interview-creation POST (route.ts lines 24-215). -/
structure CreateBody where
  jobPosition : Option String
  jobDescription : Option String
  jobExperience : Option String
  skills : Option (List String)
  difficultyLevel : Option String
  totalQuestions : Option Int
  resumeUrl : Option String
deriving DecidableEq, Repr

/-- Check of the five required fields (route.ts line 48): a field is missing
when absent or falsy. -/
def missingRequired (b : CreateBody) : Bool :=
  !(truthyStr b.jobPosition) || !(truthyStr b.jobDescription) ||
  !(truthyStr b.jobExperience) || !(truthyStr b.difficultyLevel) ||
  !(truthyInt b.totalQuestions)

/-- A follow-up question as parsed out of the model JSON. -/
structure ParsedFollowUp where
  text : String
  expectedKeyPoints : Option (List String)
  maxScore : Option Int
  timeLimit : Option Int
deriving DecidableEq, Repr

/-- A main question as parsed out of the model JSON. -/
structure ParsedQuestion where
  text : String
  category : Option String
  expectedKeyPoints : Option (List String)
  maxScore : Option Int
  timeLimit : Option Int
  followUpQuestions : Option (List ParsedFollowUp)
deriving DecidableEq, Repr

/-- Insertion of the follow-up rows of one parsed question (route.ts lines
174-188). -/
def insertParsedFollowUps (mqId : Id) (category : String) :
    Store → List ParsedFollowUp → Store
  | s, [] => s
  | s, f :: rest =>
    let fu : HRFollowUpQuestion :=
      { id := freshId (s.followUps.map (fun x => x.id))
        mainQuestionId := mqId
        text := f.text
        category := category
        expectedKeyPoints := f.expectedKeyPoints.getD []
        maxScore := some (jsOrInt f.maxScore 5)
        timeLimit := some (jsOrInt f.timeLimit 90) }
    insertParsedFollowUps mqId category (addFollowUp s fu) rest

/-- Insertion of the main-question rows and their follow-ups (route.ts lines
157-189). -/
def insertParsedQuestions (ivId : Id) : Store → List ParsedQuestion → Store
  | s, [] => s
  | s, pq :: rest =>
    let q : HRQuestion :=
      { id := freshId (s.questions.map (fun x => x.id))
        hrInterviewId := ivId
        text := pq.text
        category := jsOrStr pq.category "General"
        expectedKeyPoints := pq.expectedKeyPoints.getD []
        maxScore := some (jsOrInt pq.maxScore 10)
        timeLimit := some (jsOrInt pq.timeLimit 120) }
    let s1 := addQuestion s q
    let s2 :=
      match pq.followUpQuestions with
      | none => s1
      | some fus =>
        if fus.isEmpty then s1
        else insertParsedFollowUps q.id (jsOrStr pq.category "General") s1 fus
    insertParsedQuestions ivId s2 rest

/-- Interview-creation POST of route.ts (lines 24-215).  The handler awaits
auth, looks the caller up for a resume, validates the required fields, calls
the model and persists the parsed questions.  The ai argument is the
combined outcome of the model call and the JSON extraction: none when
generateContent threw (caught as 500), Except.error when no JSON block could
be extracted or parsed (400), Except.ok with the parsed questions list
otherwise (an absent questions key collapses to the empty list, also a
400). -/
def hrRoundCreatePost (s : Store) (session : Option UserId) (body : CreateBody)
    (ai : Option (Except Unit (List ParsedQuestion))) : Response × Store :=
  match session with
  | none => (⟨401, .err "Unauthorized"⟩, s)
  | some userId =>
    match s.users.find? (fun u => u.id == userId) with
    | none => (⟨400, .err "No resume found"⟩, s)
    | some _ =>
      if missingRequired body then
        (⟨400, .err "Missing required fields"⟩, s)
      else
        match ai with
        | none => (⟨500, .err "Internal Server Error"⟩, s)
        | some (.error _) => (⟨400, .err "Failed to parse AI response"⟩, s)
        | some (.ok parsedQuestions) =>
          if parsedQuestions.isEmpty then
            (⟨400, .err "No valid questions could be parsed from the AI response"⟩, s)
          else
            let hrInterview : HRInterview :=
              { id := freshId (s.interviews.map (fun i => i.id))
                userId := userId
                jobPosition := body.jobPosition.getD ""
                jobDescription := body.jobDescription.getD ""
                jobExperience := body.jobExperience.getD ""
                skills := body.skills.getD []
                difficultyLevel := body.difficultyLevel.getD ""
                resumeUrl := body.resumeUrl
                passScore := none
                totalScore := none }
            let s1 := addInterview s hrInterview
            (⟨201, .createdInterview hrInterview⟩,
             insertParsedQuestions hrInterview.id s1 parsedQuestions)

/-- Follow-up GET of route.ts (lines 224-304): fetch one follow-up or the
follow-ups of a main question, in both branches behind an ownership check
that answers 401 to a non-owner. -/
def hrRoundFollowUpGet (s : Store) (session : Option UserId)
    (followupId : Option Id) (mainQuestionId : Option Id) : Response × Store :=
  match session with
  | none => (⟨401, .err "Unauthorized"⟩, s)
  | some userId =>
    match followupId with
    | some fid =>
      match s.followUps.find? (fun f => f.id == fid) with
      | none => (⟨404, .err "Follow-up question not found"⟩, s)
      | some f =>
        match interviewOwnerOfQuestion s f.mainQuestionId with
        | none => (⟨500, .err "Failed to retrieve follow-up questions"⟩, s)
        | some owner =>
          if owner == userId then
            (⟨200, .followUpData f
              (s.answers.filter (fun a => a.hrFollowUpQuestionId == some fid))⟩, s)
          else (⟨401, .err "Unauthorized"⟩, s)
    | none =>
      match mainQuestionId with
      | none => (⟨400, .err "Main question ID is required"⟩, s)
      | some qid =>
        match s.questions.find? (fun q => q.id == qid) with
        | none => (⟨404, .err "Main question not found"⟩, s)
        | some q =>
          match s.interviews.find? (fun i => i.id == q.hrInterviewId) with
          | none => (⟨500, .err "Failed to retrieve follow-up questions"⟩, s)
          | some iv =>
            if iv.userId == userId then
              (⟨200, .followUpList
                (s.followUps.filter (fun f => f.mainQuestionId == qid))⟩, s)
            else (⟨401, .err "Unauthorized"⟩, s)

/-- Request body of the follow-up-creation POST of route.ts. -/
structure FollowUpBody where
  mainQuestionId : Option Id
  text : Option String
  category : Option String
  expectedKeyPoints : Option (List String)
  maxScore : Option Int
  timeLimit : Option Int
deriving DecidableEq, Repr

/-- Follow-up-creation POST of route.ts (lines 306-361).  The handler
destructures auth() without awaiting it, so it returns 401 on every request;
the creation below the check performs no cap check and is unreachable. -/
def hrRoundFollowUpPost (s : Store) (session : Option UserId)
    (body : FollowUpBody) : Response × Store :=
  match unawaitedUserId session with
  | none => (⟨401, .err "Unauthorized"⟩, s)
  | some userId =>
    match body.mainQuestionId with
    | none => (⟨404, .err "Main question not found"⟩, s)
    | some qid =>
      match s.questions.find? (fun q => q.id == qid) with
      | none => (⟨404, .err "Main question not found"⟩, s)
      | some _ =>
        match interviewOwnerOfQuestion s qid with
        | none => (⟨500, .err "Failed to create follow-up question"⟩, s)
        | some owner =>
          if owner == userId then
            let fu : HRFollowUpQuestion :=
              { id := freshId (s.followUps.map (fun f => f.id))
                mainQuestionId := qid
                text := body.text.getD ""
                category := body.category.getD ""
                expectedKeyPoints := body.expectedKeyPoints.getD []
                maxScore := body.maxScore
                timeLimit := body.timeLimit }
            (⟨200, .followUpData fu []⟩, addFollowUp s fu)
          else (⟨401, .err "Unauthorized"⟩, s)

/-- Request body of the answer-submission POST of route.ts. -/
structure AnswerPostBody where
  hrQuestionId : Option Id
  hrFollowUpQuestionId : Option Id
  userAnswer : Option String
  videoUrl : Option String
deriving DecidableEq, Repr

/-- Answer-submission POST of route.ts (lines 366-463).  The handler
destructures auth() without awaiting it, so it returns 401 on every request
and the upsert-like logic below the check is unreachable. -/
def hrRoundAnswerPost (s : Store) (session : Option UserId)
    (body : AnswerPostBody) : Response × Store :=
  match unawaitedUserId session with
  | none => (⟨401, .err "Unauthorized"⟩, s)
  | some userId =>
    let create : Response × Store :=
      let a : HRUserAnswer :=
        { id := freshId (s.answers.map (fun x => x.id))
          hrQuestionId := body.hrQuestionId
          hrFollowUpQuestionId := body.hrFollowUpQuestionId
          userId := userId
          userAnswer := body.userAnswer.getD ""
          videoUrl := body.videoUrl
          score := none
          evaluationFeedback := none
          matchedKeyPoints := []
          voiceTone := none
          confidence := none }
      (⟨200, .answerData a⟩, addAnswer s a)
    match body.hrQuestionId with
    | some qid =>
      match s.questions.find? (fun q => q.id == qid) with
      | none => (⟨404, .err "Question not found"⟩, s)
      | some q =>
        match s.interviews.find? (fun i => i.id == q.hrInterviewId) with
        | none => (⟨500, .err "Failed to submit answer"⟩, s)
        | some iv =>
          if iv.userId == userId then
            match s.answers.find? (fun a => a.hrQuestionId == some qid) with
            | some existing =>
              let upd := fun (a : HRUserAnswer) =>
                if a.id == existing.id then
                  { a with
                    userAnswer := body.userAnswer.getD a.userAnswer
                    videoUrl :=
                      match body.videoUrl with
                      | none => a.videoUrl
                      | some v => some v }
                else a
              (⟨200, .answerData (upd existing)⟩, mapAnswers s upd)
            | none => create
          else (⟨401, .err "Unauthorized"⟩, s)
    | none =>
      match body.hrFollowUpQuestionId with
      | none =>
        (⟨400, .err "Either hrQuestionId or hrFollowUpQuestionId is required"⟩, s)
      | some fid =>
        match s.followUps.find? (fun f => f.id == fid) with
        | none => (⟨404, .err "Follow-up question not found"⟩, s)
        | some f =>
          match interviewOwnerOfQuestion s f.mainQuestionId with
          | none => (⟨500, .err "Failed to submit answer"⟩, s)
          | some owner =>
            if owner == userId then create
            else (⟨401, .err "Unauthorized"⟩, s)

/-- Field-wise answer update body for the answer PATCH of route.ts (the
handler passes the parsed body straight to the ORM update). -/
structure AnswerPatch where
  userAnswer : Option String
  videoUrl : Option String
  score : Option Int
deriving DecidableEq, Repr

/-- Application of an answer patch to a row. -/
def applyAnswerPatch (p : AnswerPatch) (a : HRUserAnswer) : HRUserAnswer :=
  { a with
    userAnswer := p.userAnswer.getD a.userAnswer
    videoUrl := match p.videoUrl with | none => a.videoUrl | some v => some v
    score := match p.score with | none => a.score | some v => some v }

/-- Answer PATCH of route.ts (lines 465-537).  The handler destructures
auth() without awaiting it, so it returns 401 on every request. -/
def hrRoundAnswerPatch (s : Store) (session : Option UserId)
    (answerId : Option Id) (patch : AnswerPatch) : Response × Store :=
  match unawaitedUserId session with
  | none => (⟨401, .err "Unauthorized"⟩, s)
  | some userId =>
    match answerId with
    | none => (⟨400, .err "Answer ID is required"⟩, s)
    | some aid =>
      match s.answers.find? (fun a => a.id == aid) with
      | none => (⟨404, .err "Answer not found"⟩, s)
      | some answer =>
        let ownerViaMain := answer.hrQuestionId.bind
          (fun qid => interviewOwnerOfQuestion s qid)
        let ownerViaFu := answer.hrFollowUpQuestionId.bind
          (fun fid => (s.followUps.find? (fun f => f.id == fid)).bind
            (fun f => interviewOwnerOfQuestion s f.mainQuestionId))
        let isOwner :=
          match ownerViaMain with
          | some o => o == userId
          | none =>
            match ownerViaFu with
            | some o => o == userId
            | none => false
        if isOwner then
          (⟨200, .answerData (applyAnswerPatch patch answer)⟩,
           mapAnswers s (fun a => if a.id == aid then applyAnswerPatch patch a else a))
        else (⟨401, .err "Unauthorized"⟩, s)

/-! ## Handlers of src/app/api/hrRound/answer/route.ts

The hRUserAnswer table carries a unique constraint on hrQuestionId.
Modelled from the spec: the Prisma schema is not among the sources; the
constraint is witnessed by findUnique and upsert keyed on hrQuestionId
(route.ts lines 403 and 433), by the singular userAnswer relation include on
hRQuestion, and by the spec invariant of one answer per question.  An insert
that would duplicate a non-null hrQuestionId therefore throws and is
reported by the handler as a 500. -/

/-- Request body of the answer route (POST and PUT). -/
structure AnswerBody where
  hrQuestionId : Option Id
  followUpQuestionId : Option Id
  userAnswer : Option String
  videoUrl : Option String
deriving DecidableEq, Repr

/-- Update of an existing answer row with a fresh answer text, video url and
analysis outcome, as both save paths of the answer route perform it.  The
question links of the row are left untouched. -/
def applyAnalysisUpdate (ua : String) (vu : Option String) (an : Analysis)
    (a : HRUserAnswer) : HRUserAnswer :=
  { a with
    userAnswer := ua
    videoUrl := vu
    score := some an.score
    evaluationFeedback := some an.evaluationFeedback
    matchedKeyPoints := an.matchedKeyPoints
    voiceTone := an.voiceTone
    confidence := an.confidence }

/-- POST of the answer route: processMainQuestion (lines 170-322).  The
aiAnalysis argument is the outcome of analyzeAnswer and the aiFollowUp
argument the outcome of generateFollowUpQuestion; both services catch their
own errors and return null, so a failed model call arrives here as none and
the handler proceeds with defaults. -/
def processMainQuestion (s : Store) (session : Option UserId) (body : AnswerBody)
    (aiAnalysis : Option String) (aiFollowUp : Option String) : Response × Store :=
  match session with
  | none => (⟨401, .err "Unauthorized"⟩, s)
  | some userId =>
    if !(truthyInt (body.hrQuestionId.map Int.ofNat)) || !(truthyStr body.userAnswer) then
      (⟨400, .err "Missing required fields"⟩, s)
    else
      match body.hrQuestionId with
      | none => (⟨400, .err "Missing required fields"⟩, s)
      | some qid =>
        match s.questions.find? (fun q => q.id == qid) with
        | none => (⟨404, .err "Question not found"⟩, s)
        | some hrQuestion =>
          let ua := (body.userAnswer).getD ""
          let analysis :=
            parseAnalysisResponse aiAnalysis (jsOrInt hrQuestion.maxScore 10)
          let saved : Option (HRUserAnswer × Store) :=
            match s.answers.find?
                (fun a => a.hrQuestionId == some qid && a.userId == userId) with
            | some existing =>
              let upd := fun (a : HRUserAnswer) =>
                if a.id == existing.id then
                  applyAnalysisUpdate ua body.videoUrl analysis a
                else a
              some (applyAnalysisUpdate ua body.videoUrl analysis existing,
                    mapAnswers s upd)
            | none =>
              if s.answers.any (fun a => a.hrQuestionId == some qid) then
                none
              else
                let a : HRUserAnswer :=
                  { id := freshId (s.answers.map (fun x => x.id))
                    hrQuestionId := some qid
                    hrFollowUpQuestionId := none
                    userId := userId
                    userAnswer := ua
                    videoUrl := none
                    score := some analysis.score
                    evaluationFeedback := some analysis.evaluationFeedback
                    matchedKeyPoints := analysis.matchedKeyPoints
                    voiceTone := analysis.voiceTone
                    confidence := analysis.confidence }
                some (a, addAnswer s a)
          match saved with
          | none => (⟨500, .err "Failed to save answer"⟩, s)
          | some (hrUserAnswer, s1) =>
            let fus := s.followUps.filter (fun f => f.mainQuestionId == qid)
            match fus with
            | existingFu :: _ =>
              (⟨200, .mainAnswerResult hrUserAnswer analysis (some existingFu)⟩, s1)
            | [] =>
              match aiFollowUp with
              | none => (⟨200, .mainAnswerResult hrUserAnswer analysis none⟩, s1)
              | some followUpText =>
                let fu : HRFollowUpQuestion :=
                  { id := freshId (s1.followUps.map (fun f => f.id))
                    mainQuestionId := qid
                    text := followUpText
                    category := hrQuestion.category
                    expectedKeyPoints := []
                    maxScore := some (Int.fdiv (jsOrInt hrQuestion.maxScore 10) 2)
                    timeLimit := none }
                (⟨200, .mainAnswerResult hrUserAnswer analysis (some fu)⟩,
                 addFollowUp s1 fu)

/-- PUT of the answer route: processFollowUpQuestion (lines 324-470).  With
a followUpQuestionId the follow-up is fetched; with only a main-question id
a brand-new follow-up is generated and persisted with no cap check (aiGen is
the generateFollowUpQuestion outcome, none meaning failure, reported as
500).  The answer is then scored (aiAnalysis, none meaning the scoring call
failed and defaults are used) and upserted keyed on the main-question id of
the follow-up. -/
def processFollowUpQuestion (s : Store) (session : Option UserId)
    (body : AnswerBody) (aiGen : Option String) (aiAnalysis : Option String) :
    Response × Store :=
  match session with
  | none => (⟨401, .err "Unauthorized"⟩, s)
  | some userId =>
    if (!(truthyInt (body.followUpQuestionId.map Int.ofNat)) &&
        !(truthyInt (body.hrQuestionId.map Int.ofNat))) ||
       !(truthyStr body.userAnswer) then
      (⟨400, .err "Missing required fields"⟩, s)
    else
      let fetched : (Option (HRFollowUpQuestion × Store)) ⊕ Response :=
        match body.followUpQuestionId with
        | some fid =>
          match s.followUps.find? (fun f => f.id == fid) with
          | none => Sum.inl none
          | some f => Sum.inl (some (f, s))
        | none =>
          match body.hrQuestionId with
          | none => Sum.inl none
          | some qid =>
            match s.questions.find? (fun q => q.id == qid) with
            | none => Sum.inr ⟨404, .err "Main question not found"⟩
            | some mainQuestion =>
              match aiGen with
              | none => Sum.inr ⟨500, .err "Failed to generate follow-up question"⟩
              | some generatedText =>
                let fu : HRFollowUpQuestion :=
                  { id := freshId (s.followUps.map (fun f => f.id))
                    mainQuestionId := qid
                    text := generatedText
                    category := mainQuestion.category
                    expectedKeyPoints := []
                    maxScore := some (Int.fdiv (jsOrInt mainQuestion.maxScore 10) 2)
                    timeLimit := none }
                Sum.inl (some (fu, addFollowUp s fu))
      match fetched with
      | Sum.inr resp => (resp, s)
      | Sum.inl none =>
        (⟨404, .err "Follow-up question not found or could not be created"⟩, s)
      | Sum.inl (some (followUpQuestion, s1)) =>
        match s1.questions.find? (fun q => q.id == followUpQuestion.mainQuestionId) with
        | none => (⟨500, .err "An unexpected error occurred"⟩, s1)
        | some mainQ =>
          let ua := (body.userAnswer).getD ""
          let analysis :=
            parseAnalysisResponse aiAnalysis (jsOrInt followUpQuestion.maxScore 10)
          let mid := mainQ.id
          match s1.answers.find? (fun a => a.hrQuestionId == some mid) with
          | some existing =>
            let upd := fun (a : HRUserAnswer) =>
              if a.id == existing.id then
                applyAnalysisUpdate ua (jsStrOrNull body.videoUrl) analysis a
              else a
            (⟨200, .followUpAnswerResult
               (applyAnalysisUpdate ua (jsStrOrNull body.videoUrl) analysis existing)
               analysis followUpQuestion⟩,
             mapAnswers s1 upd)
          | none =>
            let a : HRUserAnswer :=
              { id := freshId (s1.answers.map (fun x => x.id))
                hrQuestionId := some mid
                hrFollowUpQuestionId := some followUpQuestion.id
                userId := userId
                userAnswer := ua
                videoUrl := jsStrOrNull body.videoUrl
                score := some analysis.score
                evaluationFeedback := some analysis.evaluationFeedback
                matchedKeyPoints := analysis.matchedKeyPoints
                voiceTone := analysis.voiceTone
                confidence := analysis.confidence }
            (⟨200, .followUpAnswerResult a analysis followUpQuestion⟩,
             addAnswer s1 a)

/-! ## The results page

Embedding of the aggregation in
src/app/hr-interview/[interviewId]/results/page.jsx (lines 51-76 and
139-140).  The page receives the interview with its main questions and
their unique answers; only the fields the aggregation reads are kept.
Number arithmetic is exact here except for the single division, modelled
over the rationals. -/

/-- A question row as the results page reads it: its maxScore and the score
of its answer when one exists. -/
structure ResultQuestion where
  maxScore : Option Int
  answerScore : Option Int
deriving DecidableEq, Repr

/-- The fetched results: questions plus the interview passScore. -/
structure InterviewResults where
  questions : List ResultQuestion
  passScore : Option Int
deriving DecidableEq, Repr

/-- getTotalScore (results page lines 51-59): sum of the answer scores, zero
for an unanswered question or an absent score. -/
def getTotalScore (r : InterviewResults) : Int :=
  r.questions.foldl (fun sum q => sum + jsOrInt q.answerScore 0) 0

/-- getMaxPossibleScore (results page lines 61-69). -/
def getMaxPossibleScore (r : InterviewResults) : Int :=
  r.questions.foldl (fun sum q => sum + jsOrInt q.maxScore 0) 0

/-- Math.round: round half toward positive infinity. -/
def jsRound (q : ℚ) : Int := ⌊q + 1 / 2⌋

/-- calculatePercentage (results page lines 71-76). -/
def calculatePercentage (r : InterviewResults) : Int :=
  if getMaxPossibleScore r > 0 then
    jsRound (((getTotalScore r : ℚ) / (getMaxPossibleScore r : ℚ)) * 100)
  else 0

/-- isPassing (results page line 140): the percentage against passScore with
the JavaScript || default of 70. -/
def isPassing (r : InterviewResults) : Bool :=
  decide (calculatePercentage r ≥ jsOrInt r.passScore 70)

/-- Stated from the words of the claim, for comparison with the code: the
percentage equals round of 100 times the total over the maximum, and is 0
when the maximum total is 0. -/
def claimPercentage (r : InterviewResults) : Int :=
  if getMaxPossibleScore r = 0 then 0
  else jsRound ((100 * (getTotalScore r : ℚ)) / (getMaxPossibleScore r : ℚ))

/-- Stated from the words of the claim, for comparison with the code: passed
exactly when the percentage is at least passScore, with 70 used when
passScore is absent. -/
def claimIsPassing (r : InterviewResults) : Bool :=
  decide (calculatePercentage r ≥ (r.passScore.getD 70))

/-! ## Store invariants -/

/-- The claimed cap invariant: every main question carries at most
MAX_FOLLOWUP_QUESTIONS follow-up rows. -/
def followUpCapHolds (s : Store) : Bool :=
  s.questions.all (fun q => decide (followUpCount s q.id ≤ MAX_FOLLOWUP_QUESTIONS))

/-- Number of answer rows attached to a main question. -/
def answerCountForQuestion (s : Store) (qid : Id) : Nat :=
  (s.answers.filter (fun a => a.hrQuestionId == some qid)).length

/-- Number of answer rows attached to a follow-up question. -/
def answerCountForFollowUp (s : Store) (fid : Id) : Nat :=
  (s.answers.filter (fun a => a.hrFollowUpQuestionId == some fid)).length

/-- The claimed uniqueness invariant: at most one answer row per main
question and at most one per follow-up question. -/
def oneAnswerPerQuestion (s : Store) : Bool :=
  s.questions.all (fun q => decide (answerCountForQuestion s q.id ≤ 1)) &&
  s.followUps.all (fun f => decide (answerCountForFollowUp s f.id ≤ 1))

/-- Link coherence of one answer row: an answer attached to a follow-up is
attached through hrQuestionId to the main question of that follow-up, the
shape in which every live write produces follow-up answers. -/
def coherentAnswer (s : Store) (a : HRUserAnswer) : Bool :=
  match a.hrFollowUpQuestionId with
  | none => true
  | some fid =>
    s.followUps.any (fun f => f.id == fid && a.hrQuestionId == some f.mainQuestionId)

/-- Link coherence of the whole answer table. -/
def answersCoherent (s : Store) : Bool :=
  s.answers.all (coherentAnswer s)

/-- Distinctness of the follow-up ids, as the primary-key column gives it. -/
def followUpIdsNodup (s : Store) : Bool :=
  decide (s.followUps.map (fun f => f.id)).Nodup

/-- Well-formedness used for the one-answer-per-question preservation:
uniqueness together with link coherence and key distinctness (both hold of
every store the live writes can build, and are preserved alongside). -/
def answersWF (s : Store) : Bool :=
  oneAnswerPerQuestion s && answersCoherent s && followUpIdsNodup s

/-! ## List toolkit -/

theorem le_foldr_max {x : Id} : ∀ {ids : List Id}, x ∈ ids → x ≤ ids.foldr max 0 := by
  intro ids h
  induction ids with
  | nil => cases h
  | cons a t ih =>
    rcases List.mem_cons.mp h with h1 | h2
    · subst h1; exact le_max_left _ _
    · exact le_trans (ih h2) (le_max_right _ _)

/-- A fresh id is strictly above every id in use. -/
theorem lt_freshId_of_mem {x : Id} {ids : List Id} (h : x ∈ ids) : x < freshId ids :=
  Nat.lt_succ_of_le (le_foldr_max h)

/-- Rewriting a list row-wise does not change the length of a filter whose
predicate the rewrite preserves pointwise. -/
theorem length_filter_map_congr {α : Type} (g : α → α) (p : α → Bool) (l : List α)
    (h : ∀ a, p (g a) = p a) :
    ((l.map g).filter p).length = (l.filter p).length := by
  induction l with
  | nil => rfl
  | cons a t ih =>
    simp only [List.map_cons, List.filter_cons, h a]
    cases p a <;> simp [ih]

theorem answerCountForQuestion_addAnswer (s : Store) (a : HRUserAnswer) (qid : Id) :
    answerCountForQuestion (addAnswer s a) qid =
      answerCountForQuestion s qid + (if a.hrQuestionId == some qid then 1 else 0) := by
  simp only [answerCountForQuestion, addAnswer_answers, List.filter_append]
  cases h : (a.hrQuestionId == some qid) <;> simp [h]

theorem answerCountForFollowUp_addAnswer (s : Store) (a : HRUserAnswer) (fid : Id) :
    answerCountForFollowUp (addAnswer s a) fid =
      answerCountForFollowUp s fid +
        (if a.hrFollowUpQuestionId == some fid then 1 else 0) := by
  simp only [answerCountForFollowUp, addAnswer_answers, List.filter_append]
  cases h : (a.hrFollowUpQuestionId == some fid) <;> simp [h]

theorem answerCountForQuestion_mapAnswers (s : Store) (g : HRUserAnswer → HRUserAnswer)
    (hg : ∀ a, (g a).hrQuestionId = a.hrQuestionId) (qid : Id) :
    answerCountForQuestion (mapAnswers s g) qid = answerCountForQuestion s qid := by
  simp only [answerCountForQuestion, mapAnswers_answers]
  exact length_filter_map_congr g _ _ (fun a => by rw [hg a])

theorem answerCountForFollowUp_mapAnswers (s : Store) (g : HRUserAnswer → HRUserAnswer)
    (hg : ∀ a, (g a).hrFollowUpQuestionId = a.hrFollowUpQuestionId) (fid : Id) :
    answerCountForFollowUp (mapAnswers s g) fid = answerCountForFollowUp s fid := by
  simp only [answerCountForFollowUp, mapAnswers_answers]
  exact length_filter_map_congr g _ _ (fun a => by rw [hg a])

@[simp] theorem answerCountForQuestion_addFollowUp (s : Store)
    (fu : HRFollowUpQuestion) (qid : Id) :
    answerCountForQuestion (addFollowUp s fu) qid = answerCountForQuestion s qid := rfl

@[simp] theorem answerCountForFollowUp_addFollowUp (s : Store)
    (fu : HRFollowUpQuestion) (fid : Id) :
    answerCountForFollowUp (addFollowUp s fu) fid = answerCountForFollowUp s fid := rfl

theorem followUpCount_addFollowUp (s : Store) (fu : HRFollowUpQuestion) (qid : Id) :
    followUpCount (addFollowUp s fu) qid =
      followUpCount s qid + (if fu.mainQuestionId == qid then 1 else 0) := by
  simp only [followUpCount, addFollowUp_followUps, List.filter_append]
  cases h : (fu.mainQuestionId == qid) <;> simp [h]

@[simp] theorem followUpCount_addAnswer (s : Store) (a : HRUserAnswer) (qid : Id) :
    followUpCount (addAnswer s a) qid = followUpCount s qid := rfl

@[simp] theorem followUpCount_mapAnswers (s : Store) (g : HRUserAnswer → HRUserAnswer)
    (qid : Id) : followUpCount (mapAnswers s g) qid = followUpCount s qid := rfl

@[simp] theorem applyAnalysisUpdate_id (ua : String) (vu : Option String)
    (an : Analysis) (a : HRUserAnswer) :
    (applyAnalysisUpdate ua vu an a).id = a.id := rfl

@[simp] theorem applyAnalysisUpdate_hrQuestionId (ua : String) (vu : Option String)
    (an : Analysis) (a : HRUserAnswer) :
    (applyAnalysisUpdate ua vu an a).hrQuestionId = a.hrQuestionId := rfl

@[simp] theorem applyAnalysisUpdate_hrFollowUpQuestionId (ua : String)
    (vu : Option String) (an : Analysis) (a : HRUserAnswer) :
    (applyAnalysisUpdate ua vu an a).hrFollowUpQuestionId = a.hrFollowUpQuestionId := rfl

@[simp] theorem applyAnalysisUpdate_userId (ua : String) (vu : Option String)
    (an : Analysis) (a : HRUserAnswer) :
    (applyAnalysisUpdate ua vu an a).userId = a.userId := rfl

theorem followUpCapHolds_iff (s : Store) :
    followUpCapHolds s = true ↔
      ∀ q ∈ s.questions, followUpCount s q.id ≤ MAX_FOLLOWUP_QUESTIONS := by
  simp [followUpCapHolds, List.all_eq_true]

theorem coherentAnswer_iff (s : Store) (a : HRUserAnswer) :
    coherentAnswer s a = true ↔
      ∀ fid, a.hrFollowUpQuestionId = some fid →
        ∃ f ∈ s.followUps, f.id = fid ∧ a.hrQuestionId = some f.mainQuestionId := by
  cases h : a.hrFollowUpQuestionId with
  | none => simp [coherentAnswer, h]
  | some fid =>
    simp only [coherentAnswer, h, List.any_eq_true, Bool.and_eq_true, beq_iff_eq,
      Option.some.injEq]
    constructor
    · rintro ⟨f, hf, h1, h2⟩ fid' hEq
      exact ⟨f, hf, hEq ▸ h1, h2⟩
    · rintro hAll
      obtain ⟨f, hf, h1, h2⟩ := hAll fid rfl
      exact ⟨f, hf, h1, h2⟩

theorem answersWF_iff (s : Store) :
    answersWF s = true ↔
      ((∀ q ∈ s.questions, answerCountForQuestion s q.id ≤ 1) ∧
       (∀ f ∈ s.followUps, answerCountForFollowUp s f.id ≤ 1)) ∧
      (∀ a ∈ s.answers, coherentAnswer s a = true) ∧
      (s.followUps.map (fun f => f.id)).Nodup := by
  simp [answersWF, oneAnswerPerQuestion, answersCoherent, followUpIdsNodup,
    List.all_eq_true, Bool.and_eq_true, and_assoc]

/-- Coherence only looks at the follow-up table, which mapAnswers and
addAnswer leave alone. -/
theorem coherentAnswer_mapAnswers (s : Store) (g : HRUserAnswer → HRUserAnswer)
    (x : HRUserAnswer) : coherentAnswer (mapAnswers s g) x = coherentAnswer s x := rfl

theorem coherentAnswer_addAnswer (s : Store) (a x : HRUserAnswer) :
    coherentAnswer (addAnswer s a) x = coherentAnswer s x := rfl

theorem coherentAnswer_addFollowUp_mono (s : Store) (fu : HRFollowUpQuestion)
    (x : HRUserAnswer) (h : coherentAnswer s x = true) :
    coherentAnswer (addFollowUp s fu) x = true := by
  rw [coherentAnswer_iff] at h ⊢
  intro fid hfid
  obtain ⟨f, hf, h1, h2⟩ := h fid hfid
  exact ⟨f, by simp only [addFollowUp_followUps, List.mem_append]; exact Or.inl hf,
    h1, h2⟩

/-- A row-wise answer rewrite that keeps both question links keeps
well-formedness. -/
theorem answersWF_mapAnswers (s : Store) (g : HRUserAnswer → HRUserAnswer)
    (hq : ∀ a, (g a).hrQuestionId = a.hrQuestionId)
    (hf : ∀ a, (g a).hrFollowUpQuestionId = a.hrFollowUpQuestionId)
    (h : answersWF s = true) : answersWF (mapAnswers s g) = true := by
  rw [answersWF_iff] at h ⊢
  obtain ⟨⟨h1, h2⟩, h3, h4⟩ := h
  refine ⟨⟨?_, ?_⟩, ?_, h4⟩
  · intro q hmem
    rw [answerCountForQuestion_mapAnswers s g hq]
    exact h1 q hmem
  · intro f hmem
    rw [answerCountForFollowUp_mapAnswers s g hf]
    exact h2 f hmem
  · intro a hmem
    simp only [mapAnswers_answers, List.mem_map] at hmem
    obtain ⟨a0, hmem0, rfl⟩ := hmem
    rw [coherentAnswer_mapAnswers]
    have : coherentAnswer s (g a0) = coherentAnswer s a0 := by
      unfold coherentAnswer
      rw [hq a0, hf a0]
    rw [this]
    exact h3 a0 hmem0

/-- Appending a follow-up row with an unused id keeps well-formedness. -/
theorem answersWF_addFollowUp (s : Store) (fu : HRFollowUpQuestion)
    (hfresh : ∀ f ∈ s.followUps, f.id ≠ fu.id)
    (h : answersWF s = true) : answersWF (addFollowUp s fu) = true := by
  rw [answersWF_iff] at h ⊢
  obtain ⟨⟨h1, h2⟩, h3, h4⟩ := h
  have hnew : answerCountForFollowUp s fu.id = 0 := by
    simp only [answerCountForFollowUp, List.length_eq_zero, List.filter_eq_nil_iff]
    intro a hmem hbeq
    rw [beq_iff_eq] at hbeq
    obtain ⟨f, hfmem, hfid, _⟩ := (coherentAnswer_iff s a).mp (h3 a hmem) fu.id hbeq
    exact hfresh f hfmem hfid
  refine ⟨⟨?_, ?_⟩, ?_, ?_⟩
  · intro q hmem
    exact h1 q hmem
  · intro f hmem
    simp only [addFollowUp_followUps, List.mem_append, List.mem_singleton] at hmem
    rcases hmem with hmem | rfl
    · exact h2 f hmem
    · rw [answerCountForFollowUp_addFollowUp, hnew]; exact Nat.zero_le 1
  · intro a hmem
    exact coherentAnswer_addFollowUp_mono s fu a (h3 a hmem)
  · simp only [addFollowUp_followUps, List.map_append, List.map_cons, List.map_nil]
    refine List.Nodup.append h4 (List.nodup_singleton _) ?_
    intro x hx hmem
    rw [List.mem_singleton] at hmem
    subst hmem
    obtain ⟨f, hfmem, hfid⟩ := List.mem_map.mp hx
    exact hfresh f hfmem hfid

/-- Appending an answer row keeps well-formedness when the row is coherent
and no row is yet attached to its question or its follow-up. -/
theorem answersWF_addAnswer (s : Store) (a : HRUserAnswer)
    (hq : ∀ qid, a.hrQuestionId = some qid → answerCountForQuestion s qid = 0)
    (hf : ∀ fid, a.hrFollowUpQuestionId = some fid → answerCountForFollowUp s fid = 0)
    (hcoh : coherentAnswer s a = true)
    (h : answersWF s = true) : answersWF (addAnswer s a) = true := by
  rw [answersWF_iff] at h ⊢
  obtain ⟨⟨h1, h2⟩, h3, h4⟩ := h
  refine ⟨⟨?_, ?_⟩, ?_, h4⟩
  · intro q hmem
    rw [answerCountForQuestion_addAnswer]
    by_cases hb : a.hrQuestionId == some q.id
    · rw [if_pos hb, hq q.id (beq_iff_eq.mp hb)]
    · rw [if_neg hb, Nat.add_zero]
      exact h1 q hmem
  · intro f hmem
    rw [answerCountForFollowUp_addAnswer]
    by_cases hb : a.hrFollowUpQuestionId == some f.id
    · rw [if_pos hb, hf f.id (beq_iff_eq.mp hb)]
    · rw [if_neg hb, Nat.add_zero]
      exact h2 f hmem
  · intro x hmem
    simp only [addAnswer_answers, List.mem_append, List.mem_singleton] at hmem
    rcases hmem with hmem | rfl
    · rw [coherentAnswer_addAnswer]; exact h3 x hmem
    · rw [coherentAnswer_addAnswer]; exact hcoh

/-- The id a follow-up insert picks differs from every id in the table. -/
theorem freshId_ne (l : List HRFollowUpQuestion) (f : HRFollowUpQuestion)
    (hf : f ∈ l) : f.id ≠ freshId (l.map (fun x => x.id)) := fun hEq =>
  absurd hEq (Nat.ne_of_lt (lt_freshId_of_mem (List.mem_map_of_mem _ hf)))

theorem count_zero_of_find?_none (s : Store) (qid : Id)
    (h : s.answers.find? (fun a => a.hrQuestionId == some qid) = none) :
    answerCountForQuestion s qid = 0 := by
  simp only [answerCountForQuestion, List.length_eq_zero, List.filter_eq_nil_iff]
  rw [List.find?_eq_none] at h
  exact h

theorem count_zero_of_any_false (s : Store) (qid : Id)
    (h : s.answers.any (fun a => a.hrQuestionId == some qid) = false) :
    answerCountForQuestion s qid = 0 := by
  simp only [answerCountForQuestion, List.length_eq_zero, List.filter_eq_nil_iff]
  rw [List.any_eq_false] at h
  exact h

theorem not_attached_of_count_zero (s : Store) (qid : Id)
    (h : answerCountForQuestion s qid = 0) :
    ∀ a ∈ s.answers, ¬ a.hrQuestionId = some qid := by
  simp only [answerCountForQuestion, List.length_eq_zero, List.filter_eq_nil_iff] at h
  intro a hmem hEq
  exact absurd (beq_iff_eq.mpr hEq) (h a hmem)

/-- No answer is attached to a follow-up id the follow-up table does not
hold: link coherence routes every follow-up answer through an existing
follow-up row. -/
theorem fuCount_zero_of_fresh (s : Store) (fid : Id)
    (hwf : answersWF s = true) (hfresh : ∀ f ∈ s.followUps, f.id ≠ fid) :
    answerCountForFollowUp s fid = 0 := by
  obtain ⟨_, h3, _⟩ := (answersWF_iff s).mp hwf
  simp only [answerCountForFollowUp, List.length_eq_zero, List.filter_eq_nil_iff]
  intro a hmem hbeq
  rw [beq_iff_eq] at hbeq
  obtain ⟨f, hfmem, hfid, _⟩ := (coherentAnswer_iff s a).mp (h3 a hmem) fid hbeq
  exact hfresh f hfmem hfid

/-- When the main question of a follow-up has no answer attached, neither
has the follow-up: coherence forces every answer of the follow-up to also
be attached to that main question, using key distinctness of the follow-up
table. -/
theorem fuCount_zero_of_mainCount_zero (s : Store) (F : HRFollowUpQuestion)
    (hmem : F ∈ s.followUps) (hwf : answersWF s = true)
    (hzero : answerCountForQuestion s F.mainQuestionId = 0) :
    answerCountForFollowUp s F.id = 0 := by
  obtain ⟨_, h3, h4⟩ := (answersWF_iff s).mp hwf
  simp only [answerCountForFollowUp, List.length_eq_zero, List.filter_eq_nil_iff]
  intro a hamem hbeq
  rw [beq_iff_eq] at hbeq
  obtain ⟨f, hfmem, hfid, hq⟩ := (coherentAnswer_iff s a).mp (h3 a hamem) F.id hbeq
  have hff : f = F := by
    refine List.inj_on_of_nodup_map h4 hfmem hmem ?_
    exact hfid
  subst hff
  exact not_attached_of_count_zero s f.mainQuestionId hzero a hamem hq

/-- The row-wise update both answer handlers perform preserves
well-formedness: it only touches the answer text, video url and analysis
fields. -/
theorem answersWF_analysisUpdate (s : Store) (eid : Id) (ua : String)
    (vu : Option String) (an : Analysis) (h : answersWF s = true) :
    answersWF (mapAnswers s (fun a =>
      if a.id == eid then applyAnalysisUpdate ua vu an a else a)) = true := by
  refine answersWF_mapAnswers s _ ?_ ?_ h
  · intro a; by_cases hb : (a.id == eid) = true <;> simp [hb]
  · intro a; by_cases hb : (a.id == eid) = true <;> simp [hb]

/-- processMainQuestion preserves answer-table well-formedness: the save is
an update in place, or an insert guarded by the unique key on the question
link; a follow-up insert uses a fresh key. -/
theorem processMainQuestion_preserves_wf (s : Store) (sess : Option UserId)
    (body : AnswerBody) (a1 a2 : Option String) (h : answersWF s = true) :
    answersWF (processMainQuestion s sess body a1 a2).2 = true := by
  unfold processMainQuestion
  cases sess with
  | none => exact h
  | some userId =>
    dsimp only
    by_cases hval : (!truthyInt (Option.map Int.ofNat body.hrQuestionId) ||
        !truthyStr body.userAnswer) = true
    · rw [if_pos hval]; exact h
    rw [if_neg hval]
    cases hqid : body.hrQuestionId with
    | none => exact h
    | some qid =>
      dsimp only
      cases hq : s.questions.find? (fun q => q.id == qid) with
      | none => exact h
      | some hrQuestion =>
        dsimp only
        cases hfindA : s.answers.find?
            (fun a => a.hrQuestionId == some qid && a.userId == userId) with
        | some existing =>
          dsimp only
          have hs1 := answersWF_analysisUpdate s existing.id
            ((body.userAnswer).getD "") body.videoUrl
            (parseAnalysisResponse a1 (jsOrInt hrQuestion.maxScore 10)) h
          cases hfus : s.followUps.filter (fun f => f.mainQuestionId == qid) with
          | cons fu t => exact hs1
          | nil =>
            cases a2 with
            | none => exact hs1
            | some followUpText =>
              exact answersWF_addFollowUp _ _ (fun f hf => freshId_ne _ f hf) hs1
        | none =>
          by_cases hany0 : (s.answers.any (fun a => a.hrQuestionId == some qid)) = true
          · rw [if_pos hany0]; exact h
          · rw [if_neg hany0]
            have hany : (s.answers.any (fun a => a.hrQuestionId == some qid)) = false :=
              Bool.not_eq_true _ ▸ (Bool.eq_false_iff.mpr (fun hc => hany0 hc))
            dsimp only
            have hadd : answersWF (addAnswer s
                { id := freshId (s.answers.map (fun x => x.id))
                  hrQuestionId := some qid
                  hrFollowUpQuestionId := none
                  userId := userId
                  userAnswer := (body.userAnswer).getD ""
                  videoUrl := none
                  score := some (parseAnalysisResponse a1 (jsOrInt hrQuestion.maxScore 10)).score
                  evaluationFeedback :=
                    some (parseAnalysisResponse a1 (jsOrInt hrQuestion.maxScore 10)).evaluationFeedback
                  matchedKeyPoints :=
                    (parseAnalysisResponse a1 (jsOrInt hrQuestion.maxScore 10)).matchedKeyPoints
                  voiceTone := (parseAnalysisResponse a1 (jsOrInt hrQuestion.maxScore 10)).voiceTone
                  confidence :=
                    (parseAnalysisResponse a1 (jsOrInt hrQuestion.maxScore 10)).confidence }) = true := by
              refine answersWF_addAnswer s _ ?_ ?_ ?_ h
              · intro q' hEq
                rw [Option.some_inj] at hEq
                subst hEq
                exact count_zero_of_any_false s _ hany
              · intro fid hEq
                exact absurd hEq (by simp)
              · rw [coherentAnswer_iff]
                intro fid hEq
                exact absurd hEq (by simp)
            cases hfus : s.followUps.filter (fun f => f.mainQuestionId == qid) with
            | cons fu t => exact hadd
            | nil =>
              cases a2 with
              | none => exact hadd
              | some followUpText =>
                exact answersWF_addFollowUp _ _ (fun f hf => freshId_ne _ f hf) hadd

/-- The insert the upsert of processFollowUpQuestion performs preserves
well-formedness: the upsert key guarantees the main question has no answer
yet, and coherence plus key distinctness then guarantee the follow-up has
none either. -/
theorem answersWF_upsertCreate (s : Store) (F : HRFollowUpQuestion)
    (mainQ : HRQuestion) (userId : UserId) (ua : String) (vu : Option String)
    (an : Analysis) (hmem : F ∈ s.followUps) (hid : mainQ.id = F.mainQuestionId)
    (hup : s.answers.find? (fun a => a.hrQuestionId == some mainQ.id) = none)
    (h : answersWF s = true) :
    answersWF (addAnswer s
      { id := freshId (s.answers.map (fun x => x.id))
        hrQuestionId := some mainQ.id
        hrFollowUpQuestionId := some F.id
        userId := userId
        userAnswer := ua
        videoUrl := vu
        score := some an.score
        evaluationFeedback := some an.evaluationFeedback
        matchedKeyPoints := an.matchedKeyPoints
        voiceTone := an.voiceTone
        confidence := an.confidence }) = true := by
  have hzero : answerCountForQuestion s mainQ.id = 0 :=
    count_zero_of_find?_none s mainQ.id hup
  refine answersWF_addAnswer s _ ?_ ?_ ?_ h
  · intro q' hEq
    rw [Option.some_inj] at hEq
    subst hEq
    exact hzero
  · intro fid hEq
    rw [Option.some_inj] at hEq
    subst hEq
    refine fuCount_zero_of_mainCount_zero s F hmem h ?_
    rw [← hid]
    exact hzero
  · rw [coherentAnswer_iff]
    intro fid hEq
    rw [Option.some_inj] at hEq
    subst hEq
    exact ⟨F, hmem, rfl, by rw [hid]⟩

/-- processFollowUpQuestion preserves answer-table well-formedness.  The
on-the-fly follow-up insert uses a fresh key; the upsert either updates in
place or inserts behind the unique key on the main-question link. -/
theorem processFollowUpQuestion_preserves_wf (s : Store) (sess : Option UserId)
    (body : AnswerBody) (aiGen aiAnalysis : Option String)
    (h : answersWF s = true) :
    answersWF (processFollowUpQuestion s sess body aiGen aiAnalysis).2 = true := by
  unfold processFollowUpQuestion
  cases sess with
  | none => exact h
  | some userId =>
    dsimp only
    by_cases hval : ((!truthyInt (Option.map Int.ofNat body.followUpQuestionId) &&
        !truthyInt (Option.map Int.ofNat body.hrQuestionId)) ||
        !truthyStr body.userAnswer) = true
    · rw [if_pos hval]; exact h
    rw [if_neg hval]
    cases hfid : body.followUpQuestionId with
    | some fid =>
      dsimp only
      cases hfind : s.followUps.find? (fun f => f.id == fid) with
      | none => exact h
      | some f =>
        dsimp only
        cases hmq : s.questions.find? (fun q => q.id == f.mainQuestionId) with
        | none => exact h
        | some mainQ =>
          dsimp only
          have hidq : mainQ.id = f.mainQuestionId := by
            have hp := List.find?_some hmq
            simpa using hp
          cases hup : s.answers.find? (fun a => a.hrQuestionId == some mainQ.id) with
          | some existing =>
            exact answersWF_analysisUpdate s existing.id ((body.userAnswer).getD "")
              (jsStrOrNull body.videoUrl)
              (parseAnalysisResponse aiAnalysis (jsOrInt f.maxScore 10)) h
          | none =>
            exact answersWF_upsertCreate s f mainQ userId ((body.userAnswer).getD "")
              (jsStrOrNull body.videoUrl)
              (parseAnalysisResponse aiAnalysis (jsOrInt f.maxScore 10))
              (List.mem_of_find?_eq_some hfind) hidq hup h
    | none =>
      dsimp only
      cases hqid : body.hrQuestionId with
      | none => exact h
      | some qid =>
        dsimp only
        cases hmq : s.questions.find? (fun q => q.id == qid) with
        | none => exact h
        | some mainQuestion =>
          dsimp only
          cases aiGen with
          | none => exact h
          | some generatedText =>
            dsimp only
            have hidq : mainQuestion.id = qid := by
              have hp := List.find?_some hmq
              simpa using hp
            set fu : HRFollowUpQuestion :=
              { id := freshId (s.followUps.map (fun f => f.id))
                mainQuestionId := qid
                text := generatedText
                category := mainQuestion.category
                expectedKeyPoints := []
                maxScore := some (Int.fdiv (jsOrInt mainQuestion.maxScore 10) 2)
                timeLimit := none } with hfu
            have hwf1 : answersWF (addFollowUp s fu) = true :=
              answersWF_addFollowUp s fu (fun f hf => freshId_ne _ f hf) h
            have hqs : (addFollowUp s fu).questions = s.questions := rfl
            cases hmq2 : (addFollowUp s fu).questions.find?
                (fun q => q.id == fu.mainQuestionId) with
            | none =>
              rw [hqs] at hmq2
              have : fu.mainQuestionId = qid := rfl
              rw [this, hmq] at hmq2
              cases hmq2
            | some mainQ2 =>
              dsimp only
              have hmq2' : mainQ2 = mainQuestion := by
                rw [hqs] at hmq2
                have : fu.mainQuestionId = qid := rfl
                rw [this, hmq] at hmq2
                exact (Option.some_inj.mp hmq2).symm
              have hidq2 : mainQ2.id = fu.mainQuestionId := by
                rw [hmq2', hidq]
              cases hup : (addFollowUp s fu).answers.find?
                  (fun a => a.hrQuestionId == some mainQ2.id) with
              | some existing =>
                exact answersWF_analysisUpdate (addFollowUp s fu) existing.id
                  ((body.userAnswer).getD "") (jsStrOrNull body.videoUrl)
                  (parseAnalysisResponse aiAnalysis (jsOrInt fu.maxScore 10)) hwf1
              | none =>
                exact answersWF_upsertCreate (addFollowUp s fu) fu mainQ2 userId
                  ((body.userAnswer).getD "") (jsStrOrNull body.videoUrl)
                  (parseAnalysisResponse aiAnalysis (jsOrInt fu.maxScore 10))
                  (by simp [List.mem_append]) hidq2 hup hwf1

/-- Appending one follow-up keeps the cap when its main question has room
for one more. -/
theorem cap_addFollowUp (s : Store) (fu : HRFollowUpQuestion)
    (h : followUpCapHolds s = true)
    (hnew : followUpCount s fu.mainQuestionId + 1 ≤ MAX_FOLLOWUP_QUESTIONS) :
    followUpCapHolds (addFollowUp s fu) = true := by
  rw [followUpCapHolds_iff] at h ⊢
  intro q hq
  rw [followUpCount_addFollowUp]
  by_cases hb : (fu.mainQuestionId == q.id) = true
  · rw [if_pos hb]
    rw [beq_iff_eq] at hb
    rw [← hb]
    exact hnew
  · rw [if_neg hb, Nat.add_zero]
    exact h q hq

/-- The second GET of part_001 preserves the follow-up cap: it only creates
a follow-up behind the explicit length check against
MAX_FOLLOWUP_QUESTIONS. -/
theorem part001QuestionsGet_preserves_cap (s : Store) (sess : Option UserId)
    (interviewId : Id) (questionId : Option Id) (generateFollowUp : Bool)
    (ai : Option String) (h : followUpCapHolds s = true) :
    followUpCapHolds
      (part001QuestionsGet s sess interviewId questionId generateFollowUp ai).2
        = true := by
  unfold part001QuestionsGet
  cases sess with
  | none => exact h
  | some u =>
    dsimp only
    cases hiv : s.interviews.find? (fun i => i.id == interviewId) with
    | none => exact h
    | some i =>
      dsimp only
      cases questionId with
      | none => exact h
      | some qid =>
        dsimp only
        cases hq : s.questions.find?
            (fun q => q.hrInterviewId == i.id && q.id == qid) with
        | none => exact h
        | some q =>
          dsimp only
          by_cases hgen : (generateFollowUp && decide
              ((s.followUps.filter (fun f => f.mainQuestionId == q.id)).length <
                MAX_FOLLOWUP_QUESTIONS)) = true
          · rw [if_pos hgen]
            cases hans : s.answers.find? (fun a => a.hrQuestionId == some q.id) with
            | none => exact h
            | some userAnswer =>
              dsimp only
              cases ai with
              | none => exact h
              | some followUpText =>
                dsimp only
                apply cap_addFollowUp s _ h
                have hqq : q.id = qid := by
                  have hp := List.find?_some hq
                  simp only [Bool.and_eq_true, beq_iff_eq] at hp
                  exact hp.2
                have hlt : (s.followUps.filter
                    (fun f => f.mainQuestionId == q.id)).length <
                      MAX_FOLLOWUP_QUESTIONS := by
                  rw [Bool.and_eq_true] at hgen
                  exact of_decide_eq_true hgen.2
                show followUpCount s qid + 1 ≤ MAX_FOLLOWUP_QUESTIONS
                rw [← hqq]
                unfold followUpCount
                omega
          · rw [if_neg hgen]
            exact h

/-- The POST of part_001 preserves the follow-up cap: it refuses outright
when the cap is reached. -/
theorem part001FollowUpPost_preserves_cap (s : Store) (sess : Option UserId)
    (interviewId : Id) (questionId : Option Id) (userAnswer : Option String)
    (ai : Option String) (h : followUpCapHolds s = true) :
    followUpCapHolds
      (part001FollowUpPost s sess interviewId questionId userAnswer ai).2 = true := by
  unfold part001FollowUpPost
  cases sess with
  | none => exact h
  | some u =>
    dsimp only
    by_cases hval : (!truthyInt (Option.map Int.ofNat questionId) ||
        !truthyStr userAnswer) = true
    · rw [if_pos hval]; exact h
    rw [if_neg hval]
    cases questionId with
    | none => exact h
    | some qid =>
      dsimp only
      cases hq : s.questions.find?
          (fun q => q.id == qid && q.hrInterviewId == interviewId) with
      | none => exact h
      | some q =>
        dsimp only
        by_cases hcap : (decide (followUpCount s qid ≥ MAX_FOLLOWUP_QUESTIONS)) = true
        · rw [if_pos hcap]; exact h
        · rw [if_neg hcap]
          cases ai with
          | none => exact h
          | some followUpText =>
            dsimp only
            apply cap_addFollowUp s _ h
            have hlt : ¬ (followUpCount s qid ≥ MAX_FOLLOWUP_QUESTIONS) :=
              fun hc => hcap (decide_eq_true hc)
            show followUpCount s qid + 1 ≤ MAX_FOLLOWUP_QUESTIONS
            omega

/-- processMainQuestion preserves the follow-up cap: it only creates a
follow-up when the question has none at all. -/
theorem processMainQuestion_preserves_cap (s : Store) (sess : Option UserId)
    (body : AnswerBody) (a1 a2 : Option String) (h : followUpCapHolds s = true) :
    followUpCapHolds (processMainQuestion s sess body a1 a2).2 = true := by
  unfold processMainQuestion
  cases sess with
  | none => exact h
  | some userId =>
    dsimp only
    by_cases hval : (!truthyInt (Option.map Int.ofNat body.hrQuestionId) ||
        !truthyStr body.userAnswer) = true
    · rw [if_pos hval]; exact h
    rw [if_neg hval]
    cases hqid : body.hrQuestionId with
    | none => exact h
    | some qid =>
      dsimp only
      cases hq : s.questions.find? (fun q => q.id == qid) with
      | none => exact h
      | some hrQuestion =>
        dsimp only
        have hstep : ∀ s1 : Store, s1.followUps = s.followUps →
            followUpCapHolds s1 = true →
            s.followUps.filter (fun f => f.mainQuestionId == qid) = [] →
            ∀ fu : HRFollowUpQuestion, fu.mainQuestionId = qid →
            followUpCapHolds (addFollowUp s1 fu) = true := by
          intro s1 hfu h1 hnil fu hfm
          apply cap_addFollowUp s1 _ h1
          rw [hfm]
          have : followUpCount s1 qid = 0 := by
            unfold followUpCount
            rw [hfu, hnil]
            rfl
          rw [this]
          decide
        cases hfindA : s.answers.find?
            (fun a => a.hrQuestionId == some qid && a.userId == userId) with
        | some existing =>
          dsimp only
          cases hfus : s.followUps.filter (fun f => f.mainQuestionId == qid) with
          | cons fu t => exact h
          | nil =>
            cases a2 with
            | none => exact h
            | some followUpText =>
              exact hstep _ rfl h hfus _ rfl
        | none =>
          by_cases hany0 : (s.answers.any (fun a => a.hrQuestionId == some qid)) = true
          · rw [if_pos hany0]; exact h
          · rw [if_neg hany0]
            dsimp only
            cases hfus : s.followUps.filter (fun f => f.mainQuestionId == qid) with
            | cons fu t => exact h
            | nil =>
              cases a2 with
              | none => exact h
              | some followUpText =>
                exact hstep _ rfl h hfus _ rfl

/-! ## Frame reasoning: which rows an operation can touch -/

/-- Every interview, main-question and follow-up row present before an
operation is still present, unchanged, afterwards. -/
def recordsPreserved (s t : Store) : Prop :=
  (∀ i ∈ s.interviews, i ∈ t.interviews) ∧
  (∀ q ∈ s.questions, q ∈ t.questions) ∧
  (∀ f ∈ s.followUps, f ∈ t.followUps)

theorem recordsPreserved_refl (s : Store) : recordsPreserved s s :=
  ⟨fun _ h => h, fun _ h => h, fun _ h => h⟩

theorem recordsPreserved_trans {s t u : Store} (h1 : recordsPreserved s t)
    (h2 : recordsPreserved t u) : recordsPreserved s u :=
  ⟨fun i h => h2.1 i (h1.1 i h), fun q h => h2.2.1 q (h1.2.1 q h),
   fun f h => h2.2.2 f (h1.2.2 f h)⟩

theorem recordsPreserved_addInterview (s : Store) (i : HRInterview) :
    recordsPreserved s (addInterview s i) :=
  ⟨fun x h => by simp only [addInterview_interviews, List.mem_append]; exact Or.inl h,
   fun _ h => h, fun _ h => h⟩

theorem recordsPreserved_addQuestion (s : Store) (q : HRQuestion) :
    recordsPreserved s (addQuestion s q) :=
  ⟨fun _ h => h,
   fun x h => by simp only [addQuestion_questions, List.mem_append]; exact Or.inl h,
   fun _ h => h⟩

theorem recordsPreserved_addFollowUp (s : Store) (f : HRFollowUpQuestion) :
    recordsPreserved s (addFollowUp s f) :=
  ⟨fun _ h => h, fun _ h => h,
   fun x h => by simp only [addFollowUp_followUps, List.mem_append]; exact Or.inl h⟩

theorem recordsPreserved_addAnswer (s : Store) (a : HRUserAnswer) :
    recordsPreserved s (addAnswer s a) :=
  ⟨fun _ h => h, fun _ h => h, fun _ h => h⟩

theorem recordsPreserved_mapAnswers (s : Store) (g : HRUserAnswer → HRUserAnswer) :
    recordsPreserved s (mapAnswers s g) :=
  ⟨fun _ h => h, fun _ h => h, fun _ h => h⟩

theorem recordsPreserved_insertParsedFollowUps (mqId : Id) (category : String) :
    ∀ (l : List ParsedFollowUp) (s : Store),
      recordsPreserved s (insertParsedFollowUps mqId category s l)
  | [], s => recordsPreserved_refl s
  | _ :: rest, s =>
    recordsPreserved_trans (recordsPreserved_addFollowUp s _)
      (recordsPreserved_insertParsedFollowUps mqId category rest _)

theorem recordsPreserved_insertParsedQuestions (ivId : Id) :
    ∀ (l : List ParsedQuestion) (s : Store),
      recordsPreserved s (insertParsedQuestions ivId s l)
  | [], s => recordsPreserved_refl s
  | pq :: rest, s => by
    unfold insertParsedQuestions
    dsimp only
    refine recordsPreserved_trans ?_ (recordsPreserved_insertParsedQuestions ivId rest _)
    cases pq.followUpQuestions with
    | none => exact recordsPreserved_addQuestion s _
    | some fus =>
      dsimp only
      by_cases hemp : fus.isEmpty = true
      · rw [if_pos hemp]; exact recordsPreserved_addQuestion s _
      · rw [if_neg hemp]
        exact recordsPreserved_trans (recordsPreserved_addQuestion s _)
          (recordsPreserved_insertParsedFollowUps _ _ fus _)

/-! State lemmas: the read-only handlers return the store untouched, and the
four handlers with the un-awaited auth destructuring answer 401 untouched on
every request. -/

theorem part000Get_state (s : Store) (sess : Option UserId) (iid : Option Id) :
    (part000Get s sess iid).2 = s := by
  unfold part000Get
  cases sess with
  | none => rfl
  | some u =>
    dsimp only
    cases iid with
    | some x =>
      dsimp only
      cases s.interviews.find? (fun i => i.id == x && i.userId == u) <;> rfl
    | none => rfl

theorem part001AnswersGet_state (s : Store) (iid : Option Id) :
    (part001AnswersGet s iid).2 = s := by
  unfold part001AnswersGet
  cases iid <;> rfl

theorem hrRoundFollowUpGet_state (s : Store) (sess : Option UserId)
    (fid qid : Option Id) : (hrRoundFollowUpGet s sess fid qid).2 = s := by
  unfold hrRoundFollowUpGet
  cases sess with
  | none => rfl
  | some u =>
    dsimp only
    cases fid with
    | some x =>
      dsimp only
      cases s.followUps.find? (fun f => f.id == x) with
      | none => rfl
      | some f =>
        dsimp only
        cases interviewOwnerOfQuestion s f.mainQuestionId with
        | none => rfl
        | some owner => dsimp only; by_cases hb : (owner == u) = true
                        · rw [if_pos hb]
                        · rw [if_neg hb]
    | none =>
      dsimp only
      cases qid with
      | none => rfl
      | some y =>
        dsimp only
        cases s.questions.find? (fun q => q.id == y) with
        | none => rfl
        | some q =>
          dsimp only
          cases s.interviews.find? (fun i => i.id == q.hrInterviewId) with
          | none => rfl
          | some iv => dsimp only; by_cases hb : (iv.userId == u) = true
                       · rw [if_pos hb]
                       · rw [if_neg hb]

theorem part000Delete_model (s : Store) (sess : Option UserId) (iid : Option Id) :
    part000Delete s sess iid = (⟨401, .err "Unauthorized"⟩, s) := rfl

theorem part000Post_model (s : Store) (sess : Option UserId) (body : Part000Body) :
    part000Post s sess body = (⟨401, .err "Unauthorized"⟩, s) := rfl

theorem part000Patch_model (s : Store) (sess : Option UserId) (iid : Option Id)
    (patch : InterviewPatch) :
    part000Patch s sess iid patch = (⟨401, .err "Unauthorized"⟩, s) := rfl

theorem hrRoundFollowUpPost_model (s : Store) (sess : Option UserId)
    (body : FollowUpBody) :
    hrRoundFollowUpPost s sess body = (⟨401, .err "Unauthorized"⟩, s) := rfl

theorem hrRoundAnswerPost_model (s : Store) (sess : Option UserId)
    (body : AnswerPostBody) :
    hrRoundAnswerPost s sess body = (⟨401, .err "Unauthorized"⟩, s) := rfl

theorem hrRoundAnswerPatch_model (s : Store) (sess : Option UserId)
    (aid : Option Id) (patch : AnswerPatch) :
    hrRoundAnswerPatch s sess aid patch = (⟨401, .err "Unauthorized"⟩, s) := rfl

/-! Per-operation frame lemmas for the writers. -/

theorem part001QuestionsGet_frame (s : Store) (sess : Option UserId)
    (interviewId : Id) (questionId : Option Id) (generateFollowUp : Bool)
    (ai : Option String) :
    recordsPreserved s
      (part001QuestionsGet s sess interviewId questionId generateFollowUp ai).2 := by
  unfold part001QuestionsGet
  cases sess with
  | none => exact recordsPreserved_refl s
  | some u =>
    dsimp only
    cases s.interviews.find? (fun i => i.id == interviewId) with
    | none => exact recordsPreserved_refl s
    | some i =>
      dsimp only
      cases questionId with
      | none => exact recordsPreserved_refl s
      | some qid =>
        dsimp only
        cases s.questions.find? (fun q => q.hrInterviewId == i.id && q.id == qid) with
        | none => exact recordsPreserved_refl s
        | some q =>
          dsimp only
          by_cases hgen : (generateFollowUp && decide
              ((s.followUps.filter (fun f => f.mainQuestionId == q.id)).length <
                MAX_FOLLOWUP_QUESTIONS)) = true
          · rw [if_pos hgen]
            cases s.answers.find? (fun a => a.hrQuestionId == some q.id) with
            | none => exact recordsPreserved_refl s
            | some ua =>
              dsimp only
              cases ai with
              | none => exact recordsPreserved_refl s
              | some t => exact recordsPreserved_addFollowUp s _
          · rw [if_neg hgen]
            exact recordsPreserved_refl s

theorem part001FollowUpPost_frame (s : Store) (sess : Option UserId)
    (interviewId : Id) (questionId : Option Id) (userAnswer : Option String)
    (ai : Option String) :
    recordsPreserved s
      (part001FollowUpPost s sess interviewId questionId userAnswer ai).2 := by
  unfold part001FollowUpPost
  cases sess with
  | none => exact recordsPreserved_refl s
  | some u =>
    dsimp only
    by_cases hval : (!truthyInt (Option.map Int.ofNat questionId) ||
        !truthyStr userAnswer) = true
    · rw [if_pos hval]; exact recordsPreserved_refl s
    rw [if_neg hval]
    cases questionId with
    | none => exact recordsPreserved_refl s
    | some qid =>
      dsimp only
      cases s.questions.find?
          (fun q => q.id == qid && q.hrInterviewId == interviewId) with
      | none => exact recordsPreserved_refl s
      | some q =>
        dsimp only
        by_cases hcap : (decide (followUpCount s qid ≥ MAX_FOLLOWUP_QUESTIONS)) = true
        · rw [if_pos hcap]; exact recordsPreserved_refl s
        · rw [if_neg hcap]
          cases ai with
          | none => exact recordsPreserved_refl s
          | some t => exact recordsPreserved_addFollowUp s _

theorem hrRoundCreatePost_frame (s : Store) (sess : Option UserId)
    (body : CreateBody) (ai : Option (Except Unit (List ParsedQuestion))) :
    recordsPreserved s (hrRoundCreatePost s sess body ai).2 := by
  unfold hrRoundCreatePost
  cases sess with
  | none => exact recordsPreserved_refl s
  | some u =>
    dsimp only
    cases s.users.find? (fun x => x.id == u) with
    | none => exact recordsPreserved_refl s
    | some _ =>
      dsimp only
      by_cases hmf : missingRequired body = true
      · rw [if_pos hmf]; exact recordsPreserved_refl s
      rw [if_neg hmf]
      cases ai with
      | none => exact recordsPreserved_refl s
      | some r =>
        cases r with
        | error e => exact recordsPreserved_refl s
        | ok parsedQuestions =>
          dsimp only
          by_cases hemp : parsedQuestions.isEmpty = true
          · rw [if_pos hemp]; exact recordsPreserved_refl s
          · rw [if_neg hemp]
            exact recordsPreserved_trans (recordsPreserved_addInterview s _)
              (recordsPreserved_insertParsedQuestions _ parsedQuestions _)

theorem processMainQuestion_frame (s : Store) (sess : Option UserId)
    (body : AnswerBody) (a1 a2 : Option String) :
    recordsPreserved s (processMainQuestion s sess body a1 a2).2 := by
  unfold processMainQuestion
  cases sess with
  | none => exact recordsPreserved_refl s
  | some userId =>
    dsimp only
    by_cases hval : (!truthyInt (Option.map Int.ofNat body.hrQuestionId) ||
        !truthyStr body.userAnswer) = true
    · rw [if_pos hval]; exact recordsPreserved_refl s
    rw [if_neg hval]
    cases body.hrQuestionId with
    | none => exact recordsPreserved_refl s
    | some qid =>
      dsimp only
      cases s.questions.find? (fun q => q.id == qid) with
      | none => exact recordsPreserved_refl s
      | some hrQuestion =>
        dsimp only
        cases s.answers.find?
            (fun a => a.hrQuestionId == some qid && a.userId == userId) with
        | some existing =>
          dsimp only
          cases s.followUps.filter (fun f => f.mainQuestionId == qid) with
          | cons fu t => exact recordsPreserved_mapAnswers s _
          | nil =>
            cases a2 with
            | none => exact recordsPreserved_mapAnswers s _
            | some followUpText =>
              exact recordsPreserved_trans (recordsPreserved_mapAnswers s _)
                (recordsPreserved_addFollowUp _ _)
        | none =>
          by_cases hany0 : (s.answers.any (fun a => a.hrQuestionId == some qid)) = true
          · rw [if_pos hany0]; exact recordsPreserved_refl s
          · rw [if_neg hany0]
            dsimp only
            cases s.followUps.filter (fun f => f.mainQuestionId == qid) with
            | cons fu t => exact recordsPreserved_addAnswer s _
            | nil =>
              cases a2 with
              | none => exact recordsPreserved_addAnswer s _
              | some followUpText =>
                exact recordsPreserved_trans (recordsPreserved_addAnswer s _)
                  (recordsPreserved_addFollowUp _ _)

theorem processFollowUpQuestion_frame (s : Store) (sess : Option UserId)
    (body : AnswerBody) (aiGen aiAnalysis : Option String) :
    recordsPreserved s (processFollowUpQuestion s sess body aiGen aiAnalysis).2 := by
  unfold processFollowUpQuestion
  cases sess with
  | none => exact recordsPreserved_refl s
  | some userId =>
    dsimp only
    by_cases hval : ((!truthyInt (Option.map Int.ofNat body.followUpQuestionId) &&
        !truthyInt (Option.map Int.ofNat body.hrQuestionId)) ||
        !truthyStr body.userAnswer) = true
    · rw [if_pos hval]; exact recordsPreserved_refl s
    rw [if_neg hval]
    cases body.followUpQuestionId with
    | some fid =>
      dsimp only
      cases s.followUps.find? (fun f => f.id == fid) with
      | none => exact recordsPreserved_refl s
      | some f =>
        dsimp only
        cases s.questions.find? (fun q => q.id == f.mainQuestionId) with
        | none => exact recordsPreserved_refl s
        | some mainQ =>
          dsimp only
          cases s.answers.find? (fun a => a.hrQuestionId == some mainQ.id) with
          | some existing => exact recordsPreserved_mapAnswers s _
          | none => exact recordsPreserved_addAnswer s _
    | none =>
      dsimp only
      cases body.hrQuestionId with
      | none => exact recordsPreserved_refl s
      | some qid =>
        dsimp only
        cases s.questions.find? (fun q => q.id == qid) with
        | none => exact recordsPreserved_refl s
        | some mainQuestion =>
          dsimp only
          cases aiGen with
          | none => exact recordsPreserved_refl s
          | some generatedText =>
            dsimp only
            set fu : HRFollowUpQuestion :=
              { id := freshId (s.followUps.map (fun f => f.id))
                mainQuestionId := qid
                text := generatedText
                category := mainQuestion.category
                expectedKeyPoints := []
                maxScore := some (Int.fdiv (jsOrInt mainQuestion.maxScore 10) 2)
                timeLimit := none } with hfu
            have hstep : recordsPreserved s (addFollowUp s fu) :=
              recordsPreserved_addFollowUp s fu
            cases (addFollowUp s fu).questions.find? (fun q => q.id == qid) with
            | none => exact hstep
            | some mainQ2 =>
              dsimp only
              cases (addFollowUp s fu).answers.find?
                  (fun a => a.hrQuestionId == some mainQ2.id) with
              | some existing =>
                exact recordsPreserved_trans hstep (recordsPreserved_mapAnswers _ _)
              | none =>
                exact recordsPreserved_trans hstep (recordsPreserved_addAnswer _ _)

/-! ## Concrete stores used to exercise the handlers -/

/-- A user with a stored resume. -/
def userAlice : User := { id := "alice", resume := some "resume.pdf" }

/-- An interview owned by alice. -/
def iv1 : HRInterview :=
  { id := 1, userId := "alice", jobPosition := "Developer",
    jobDescription := "Build things", jobExperience := "3", skills := []
    difficultyLevel := "Easy", resumeUrl := none, passScore := none,
    totalScore := none }

/-- A main question of that interview. -/
def q1 : HRQuestion :=
  { id := 1, hrInterviewId := 1, text := "Tell me about yourself",
    category := "Behavioral", expectedKeyPoints := [], maxScore := some 10,
    timeLimit := some 120 }

/-- A first follow-up of the main question. -/
def fuA : HRFollowUpQuestion :=
  { id := 1, mainQuestionId := 1, text := "Go deeper", category := "Behavioral",
    expectedKeyPoints := [], maxScore := some 5, timeLimit := some 90 }

/-- A second follow-up of the main question: the cap is reached. -/
def fuB : HRFollowUpQuestion :=
  { id := 2, mainQuestionId := 1, text := "And one more", category := "Behavioral",
    expectedKeyPoints := [], maxScore := some 5, timeLimit := some 90 }

/-- A store with one interview, one main question and no follow-ups. -/
def exStore0 : Store :=
  { users := [userAlice], interviews := [iv1], questions := [q1],
    followUps := [], answers := [] }

/-- A store in which the main question already carries the maximal number of
follow-ups. -/
def exStoreTwoFUs : Store :=
  { users := [userAlice], interviews := [iv1], questions := [q1],
    followUps := [fuA, fuB], answers := [] }

/-- An answer row for the main question, by its owner. -/
def ansA : HRUserAnswer :=
  { id := 1, hrQuestionId := some 1, hrFollowUpQuestionId := none,
    userId := "alice", userAnswer := "my answer", videoUrl := none,
    score := some 5, evaluationFeedback := some "fine", matchedKeyPoints := [],
    voiceTone := none, confidence := none }

/-- A store whose main question is answered and has no follow-up yet: the
generating branch of the part_001 question GET fires on it. -/
def exStoreAnswered : Store :=
  { users := [userAlice], interviews := [iv1], questions := [q1],
    followUps := [], answers := [ansA] }

/-! ## Score bounds of the parser -/

theorem parseAnalysisResponse_none_eq (m : Int) :
    parseAnalysisResponse none m =
      { score := Int.fdiv m 2
        evaluationFeedback := "Unable to generate detailed analysis."
        matchedKeyPoints := []
        voiceTone := none
        confidence := none } := rfl

/-- The empty string is falsy under the guard of the parser, so it takes
the same fallback branch as a null text. -/
theorem parseAnalysisResponse_empty_eq (m : Int) :
    parseAnalysisResponse (some "") m =
      { score := Int.fdiv m 2
        evaluationFeedback := "Unable to generate detailed analysis."
        matchedKeyPoints := []
        voiceTone := none
        confidence := none } := rfl

/-- The score projection over any text: on the empty string both branches
agree on floor(maxScore / 2), since no pattern matches there. -/
theorem parseAnalysisResponse_some_score (txt : String) (m : Int) :
    (parseAnalysisResponse (some txt) m).score =
      (match extractScore txt.data with
       | some n => min (Int.ofNat n) m
       | none => Int.fdiv m 2) := by
  by_cases h : txt = ""
  · subst h; rfl
  · unfold parseAnalysisResponse
    dsimp only
    rw [if_neg h]

theorem parseAnalysisResponse_some_feedback (txt : String) (m : Int)
    (h : txt ≠ "") :
    (parseAnalysisResponse (some txt) m).evaluationFeedback =
      (match extractFeedback txt.data with
       | some cap => String.mk (jsTrim cap)
       | none => "No specific feedback provided.") := by
  unfold parseAnalysisResponse
  dsimp only
  rw [if_neg h]

theorem parseAnalysisResponse_some_keyPoints (txt : String) (m : Int) :
    (parseAnalysisResponse (some txt) m).matchedKeyPoints =
      (match extractKeyPoints txt.data with
       | some cap => splitKeyPoints cap
       | none => []) := by
  by_cases h : txt = ""
  · subst h; rfl
  · unfold parseAnalysisResponse
    dsimp only
    rw [if_neg h]

theorem parseAnalysisResponse_some_voiceTone (txt : String) (m : Int) :
    (parseAnalysisResponse (some txt) m).voiceTone =
      (extractVoiceTone txt.data).map (fun cap => String.mk (jsTrim cap)) := by
  by_cases h : txt = ""
  · subst h; rfl
  · unfold parseAnalysisResponse
    dsimp only
    rw [if_neg h]

theorem parseAnalysisResponse_some_confidence (txt : String) (m : Int) :
    (parseAnalysisResponse (some txt) m).confidence =
      (extractConfidence txt.data).map (fun cap => String.mk (jsTrim cap)) := by
  by_cases h : txt = ""
  · subst h; rfl
  · unfold parseAnalysisResponse
    dsimp only
    rw [if_neg h]

theorem fdiv_two_bounds (m : Int) (hm : 0 ≤ m) :
    0 ≤ Int.fdiv m 2 ∧ Int.fdiv m 2 ≤ m := by
  rw [Int.fdiv_eq_ediv m (by norm_num)]
  omega

/-- A results record whose interview has passScore equal to 0: here the
JavaScript || in isPassing silently substitutes 70. -/
def res0 : InterviewResults :=
  { questions := [{ maxScore := some 10, answerScore := some 5 }],
    passScore := some 0 }

/-! ## Claim theorems -/

/-- C5: parseAnalysisResponse returns, for a falsy analysis text (null or
the empty string, both sent to the fallback branch by the JavaScript
guard), the fixed fallback record with score floor(maxScore / 2), the fixed
fallback message, no key points and null voiceTone and confidence; and for
a text in which an extraction pattern is absent it keeps the documented
default for that field (the feedback default of the extraction branch,
reached only by non-empty texts, is its own fixed message). -/
theorem C5_parser_defaults :
    (∀ m : Int, parseAnalysisResponse none m =
      { score := Int.fdiv m 2
        evaluationFeedback := "Unable to generate detailed analysis."
        matchedKeyPoints := []
        voiceTone := none
        confidence := none }) ∧
    (∀ m : Int, parseAnalysisResponse (some "") m =
      { score := Int.fdiv m 2
        evaluationFeedback := "Unable to generate detailed analysis."
        matchedKeyPoints := []
        voiceTone := none
        confidence := none }) ∧
    (∀ (txt : String) (m : Int),
      (extractScore txt.data = none →
        (parseAnalysisResponse (some txt) m).score = Int.fdiv m 2) ∧
      (txt ≠ "" → extractFeedback txt.data = none →
        (parseAnalysisResponse (some txt) m).evaluationFeedback =
          "No specific feedback provided.") ∧
      (extractKeyPoints txt.data = none →
        (parseAnalysisResponse (some txt) m).matchedKeyPoints = []) ∧
      (extractVoiceTone txt.data = none →
        (parseAnalysisResponse (some txt) m).voiceTone = none) ∧
      (extractConfidence txt.data = none →
        (parseAnalysisResponse (some txt) m).confidence = none)) := by
  refine ⟨fun m => rfl, fun m => rfl, fun txt m => ⟨?_, ?_, ?_, ?_, ?_⟩⟩
  · intro h; rw [parseAnalysisResponse_some_score, h]
  · intro hne h; rw [parseAnalysisResponse_some_feedback txt m hne, h]
  · intro h; rw [parseAnalysisResponse_some_keyPoints, h]
  · intro h; rw [parseAnalysisResponse_some_voiceTone, h]; rfl
  · intro h; rw [parseAnalysisResponse_some_confidence, h]; rfl

/-- A non-empty text none of the five patterns matches exercises every
extraction-branch default. -/
theorem C5_parser_defaults_witness :
    (parseAnalysisResponse (some "hello") 10).score = Int.fdiv 10 2 ∧
    (parseAnalysisResponse (some "hello") 10).evaluationFeedback =
      "No specific feedback provided." ∧
    (parseAnalysisResponse (some "hello") 10).matchedKeyPoints = [] ∧
    (parseAnalysisResponse (some "hello") 10).voiceTone = none ∧
    (parseAnalysisResponse (some "hello") 10).confidence = none :=
  ⟨(C5_parser_defaults.2.2 "hello" 10).1 (by decide),
   (C5_parser_defaults.2.2 "hello" 10).2.1 (by decide) (by decide),
   (C5_parser_defaults.2.2 "hello" 10).2.2.1 (by decide),
   (C5_parser_defaults.2.2 "hello" 10).2.2.2.1 (by decide),
   (C5_parser_defaults.2.2 "hello" 10).2.2.2.2 (by decide)⟩

/-- C10: for a non-negative maxScore the parsed score always lies between 0
and maxScore: a matched Score value is capped at maxScore via min, and the
fallback (null text or absent pattern) is floor(maxScore / 2). -/
theorem C10_score_bounds : ∀ (m : Int) (t : Option String), 0 ≤ m →
    (0 ≤ (parseAnalysisResponse t m).score ∧ (parseAnalysisResponse t m).score ≤ m) ∧
    (t = none → (parseAnalysisResponse t m).score = Int.fdiv m 2) ∧
    (∀ txt n, t = some txt → extractScore txt.data = some n →
      (parseAnalysisResponse t m).score = min (Int.ofNat n) m) := by
  intro m t hm
  refine ⟨?_, ?_, ?_⟩
  · cases t with
    | none => rw [parseAnalysisResponse_none_eq]; exact fdiv_two_bounds m hm
    | some txt =>
      cases hs : extractScore txt.data with
      | none =>
        constructor <;> rw [parseAnalysisResponse_some_score, hs]
        · exact (fdiv_two_bounds m hm).1
        · exact (fdiv_two_bounds m hm).2
      | some n =>
        constructor <;> rw [parseAnalysisResponse_some_score, hs]
        · exact le_min (Int.ofNat_nonneg n) hm
        · exact min_le_right _ _
  · intro ht; subst ht; rfl
  · intro txt n ht hs
    subst ht
    rw [parseAnalysisResponse_some_score, hs]

/-- A matched score of 99 against maxScore 10 is capped at 10. -/
theorem C10_score_bounds_witness :
    (0 ≤ (parseAnalysisResponse (some "Score: 99") 10).score ∧
     (parseAnalysisResponse (some "Score: 99") 10).score ≤ 10) ∧
    (parseAnalysisResponse (some "Score: 99") 10).score = min (Int.ofNat 99) 10 :=
  ⟨(C10_score_bounds 10 (some "Score: 99") (by norm_num)).1,
   (C10_score_bounds 10 (some "Score: 99") (by norm_num)).2.2 "Score: 99" 99 rfl
     (by decide)⟩

/-- C6 as stated fails on the code: with a stored passScore of 0 the
JavaScript || in isPassing falls back to 70, so an interview whose
percentage is 50 is not passed although 50 is at least its passScore. -/
theorem C6_results_counterexample :
    res0.passScore = some 0 ∧ calculatePercentage res0 = 50 ∧
    claimIsPassing res0 = true ∧ isPassing res0 = false := by
  have h : calculatePercentage res0 = 50 := by
    norm_num [calculatePercentage, getTotalScore, getMaxPossibleScore, jsRound,
      jsOrInt, res0]
  refine ⟨rfl, h, ?_, ?_⟩
  · simp only [claimIsPassing, h]; decide
  · simp only [isPassing, h]; decide

/-- C6 (amended): over a non-negative maximum total the page percentage is
exactly the claimed round(100 times total over maximum), and 0 when the
maximum is 0; the interview is passed exactly when the percentage reaches
passScore, with 70 substituted when passScore is absent or equal to 0
(JavaScript falsiness). -/
theorem C6_results_amended : ∀ r : InterviewResults,
    (0 ≤ getMaxPossibleScore r → calculatePercentage r = claimPercentage r) ∧
    (isPassing r = true ↔ calculatePercentage r ≥
      (match r.passScore with
       | none => 70
       | some v => if v = 0 then 70 else v)) := by
  intro r
  constructor
  · intro hm
    unfold calculatePercentage claimPercentage
    by_cases hz : getMaxPossibleScore r = 0
    · rw [hz]; norm_num
    · have hpos : getMaxPossibleScore r > 0 := lt_of_le_of_ne hm (Ne.symm hz)
      rw [if_pos hpos, if_neg hz]
      congr 1
      ring
  · simp only [isPassing, decide_eq_true_iff]
    exact Iff.rfl

/-- Instantiation of the amended results claim at the concrete record. -/
theorem C6_results_amended_witness :
    calculatePercentage res0 = claimPercentage res0 :=
  (C6_results_amended res0).1 (by norm_num [getMaxPossibleScore, res0, jsOrInt])

/-- C1 as stated fails on the code: in a store whose main question already
carries MAX_FOLLOWUP_QUESTIONS follow-ups, one PUT to the answer route with
only a main-question id creates a third follow-up, because
processFollowUpQuestion performs no cap check before its insert. -/
theorem C1_cap_counterexample :
    followUpCapHolds exStoreTwoFUs = true ∧
    followUpCount (processFollowUpQuestion exStoreTwoFUs (some "alice")
      { hrQuestionId := some 1, followUpQuestionId := none,
        userAnswer := some "my answer", videoUrl := none }
      (some "generated question") (some "Score: 4")).2 1 = 3 ∧
    followUpCapHolds (processFollowUpQuestion exStoreTwoFUs (some "alice")
      { hrQuestionId := some 1, followUpQuestionId := none,
        userAnswer := some "my answer", videoUrl := none }
      (some "generated question") (some "Score: 4")).2 = false :=
  ⟨by decide, by decide, by decide⟩

/-- C1 (amended): the question GET with generateFollowUp, the follow-up
POST of part_001 and the main-answer handler each preserve the cap of
MAX_FOLLOWUP_QUESTIONS follow-ups per main question (the first two check
the count explicitly, the third only creates when no follow-up exists);
the follow-up answer handler given a main-question id does not, so the cap
is not an invariant of every reachable store. -/
theorem C1_cap_amended :
    (∀ s sess interviewId questionId generateFollowUp ai,
      followUpCapHolds s = true →
      followUpCapHolds
        (part001QuestionsGet s sess interviewId questionId generateFollowUp ai).2
          = true) ∧
    (∀ s sess interviewId questionId userAnswer ai,
      followUpCapHolds s = true →
      followUpCapHolds
        (part001FollowUpPost s sess interviewId questionId userAnswer ai).2 = true) ∧
    (∀ s sess body a1 a2,
      followUpCapHolds s = true →
      followUpCapHolds (processMainQuestion s sess body a1 a2).2 = true) :=
  ⟨part001QuestionsGet_preserves_cap, part001FollowUpPost_preserves_cap,
   processMainQuestion_preserves_cap⟩

/-- The part_001 POST refuses to exceed the cap on the saturated store. -/
theorem C1_cap_amended_witness :
    followUpCapHolds exStoreTwoFUs = true ∧
    followUpCapHolds (part001FollowUpPost exStoreTwoFUs (some "alice") 1 (some 1)
      (some "an answer") (some "another follow-up")).2 = true :=
  ⟨by decide,
   C1_cap_amended.2.1 exStoreTwoFUs (some "alice") 1 (some 1) (some "an answer")
     (some "another follow-up") (by decide)⟩

/-- With an existing answer row for the question and the caller, every path
of processMainQuestion leaves the number of answer rows unchanged: the save
updates the found row in place. -/
theorem processMainQuestion_update_in_place (s : Store) (u : UserId)
    (body : AnswerBody) (a1 a2 : Option String) (e : HRUserAnswer)
    (hex : ∀ qid, body.hrQuestionId = some qid →
      s.answers.find? (fun a => a.hrQuestionId == some qid && a.userId == u) =
        some e) :
    ((processMainQuestion s (some u) body a1 a2).2).answers.length =
      s.answers.length := by
  unfold processMainQuestion
  dsimp only
  by_cases hval : (!truthyInt (Option.map Int.ofNat body.hrQuestionId) ||
      !truthyStr body.userAnswer) = true
  · rw [if_pos hval]
  rw [if_neg hval]
  cases hqid : body.hrQuestionId with
  | none => rfl
  | some qid =>
    dsimp only
    cases hq : s.questions.find? (fun q => q.id == qid) with
    | none => rfl
    | some hrQuestion =>
      dsimp only
      rw [hex qid hqid]
      dsimp only
      cases s.followUps.filter (fun f => f.mainQuestionId == qid) with
      | cons fu t => simp
      | nil =>
        cases a2 with
        | none => simp
        | some followUpText => simp

/-- C2: the answer-saving operations preserve the one-answer-per-question
shape of the store (answersWF packages the at-most-one counts with the link
coherence and key distinctness every reachable store satisfies), and a
resubmission for a question the caller already answered updates the stored
row in place, leaving the number of answer rows unchanged.  The
answer-submission POST of route.ts never writes at all, because of its
un-awaited auth destructuring. -/
theorem C2_one_answer_upsert :
    (∀ s sess body a1 a2, answersWF s = true →
      answersWF (processMainQuestion s sess body a1 a2).2 = true) ∧
    (∀ s sess body aiGen aiAnalysis, answersWF s = true →
      answersWF (processFollowUpQuestion s sess body aiGen aiAnalysis).2 = true) ∧
    (∀ s sess body, answersWF s = true →
      answersWF (hrRoundAnswerPost s sess body).2 = true) ∧
    (∀ s u body a1 a2 e,
      (∀ qid, body.hrQuestionId = some qid →
        s.answers.find? (fun a => a.hrQuestionId == some qid && a.userId == u) =
          some e) →
      ((processMainQuestion s (some u) body a1 a2).2).answers.length =
        s.answers.length) :=
  ⟨processMainQuestion_preserves_wf, processFollowUpQuestion_preserves_wf,
   fun s sess body h => by rw [hrRoundAnswerPost_model]; exact h,
   processMainQuestion_update_in_place⟩

/-- A fresh answer submission on the empty answer table keeps the store
well-formed. -/
theorem C2_one_answer_upsert_witness :
    answersWF exStore0 = true ∧
    answersWF (processMainQuestion exStore0 (some "alice")
      { hrQuestionId := some 1, followUpQuestionId := none,
        userAnswer := some "an answer", videoUrl := none }
      (some "Score: 8") (some "a follow-up")).2 = true :=
  ⟨by decide,
   C2_one_answer_upsert.1 exStore0 (some "alice")
     { hrQuestionId := some 1, followUpQuestionId := none,
       userAnswer := some "an answer", videoUrl := none }
     (some "Score: 8") (some "a follow-up") (by decide)⟩

/-- C3 as stated fails on the code: when the scoring call fails (the
analysis service catches its own error and hands back null), the main
answer handler does not report an error; it stores the fallback analysis
and returns success with status 200. -/
theorem C3_failure_counterexample :
    (processMainQuestion exStore0 (some "alice")
      { hrQuestionId := some 1, followUpQuestionId := none,
        userAnswer := some "my answer", videoUrl := none } none none).1.status =
      200 ∧
    ((processMainQuestion exStore0 (some "alice")
      { hrQuestionId := some 1, followUpQuestionId := none,
        userAnswer := some "my answer", videoUrl := none } none none).2).answers.map
        (fun a => a.score) = [some 5] :=
  ⟨by decide, by decide⟩

/-- C3 (amended): no handler retries a failed generative call (each call
site consumes exactly one model outcome).  A failure of the
question-generation calls is reported as an error with nothing persisted:
the creation POST never succeeds and never writes, the part_001 follow-up
POST never succeeds and never writes, the part_001 question GET never
writes and answers 500 whenever its generating branch fires, and the
on-the-fly generation path of the follow-up answer handler returns 500
with the store untouched.  A failure of the answer-scoring call however is
not reported: the main answer handler still returns 200. -/
theorem C3_failure_amended :
    (∀ s sess body, (hrRoundCreatePost s sess body none).2 = s ∧
      (hrRoundCreatePost s sess body none).1.status ≠ 201) ∧
    (∀ s sess interviewId questionId userAnswer,
      (part001FollowUpPost s sess interviewId questionId userAnswer none).2 = s ∧
      (part001FollowUpPost s sess interviewId questionId userAnswer none).1.status
        ≠ 200) ∧
    (∀ s sess interviewId questionId generateFollowUp,
      (part001QuestionsGet s sess interviewId questionId generateFollowUp none).2
        = s) ∧
    (∀ s u interviewId qid i q ua,
      s.interviews.find? (fun x => x.id == interviewId) = some i →
      s.questions.find? (fun x => x.hrInterviewId == i.id && x.id == qid) =
        some q →
      (s.followUps.filter (fun f => f.mainQuestionId == q.id)).length <
        MAX_FOLLOWUP_QUESTIONS →
      s.answers.find? (fun a => a.hrQuestionId == some q.id) = some ua →
      part001QuestionsGet s (some u) interviewId (some qid) true none =
        (⟨500, .err "Failed to fetch questions"⟩, s)) ∧
    (∀ s u body aiAnalysis qid mq, body.followUpQuestionId = none →
      body.hrQuestionId = some qid → qid ≠ 0 → truthyStr body.userAnswer = true →
      s.questions.find? (fun q => q.id == qid) = some mq →
      processFollowUpQuestion s (some u) body none aiAnalysis =
        (⟨500, .err "Failed to generate follow-up question"⟩, s)) ∧
    (∀ s u body a2 qid mq e, body.hrQuestionId = some qid → qid ≠ 0 →
      truthyStr body.userAnswer = true →
      s.questions.find? (fun q => q.id == qid) = some mq →
      s.answers.find? (fun a => a.hrQuestionId == some qid && a.userId == u) =
        some e →
      (processMainQuestion s (some u) body none a2).1.status = 200) := by
  refine ⟨?_, ?_, ?_, ?_, ?_, ?_⟩
  · intro s sess body
    unfold hrRoundCreatePost
    cases sess with
    | none => exact ⟨rfl, by simp⟩
    | some u =>
      dsimp only
      cases s.users.find? (fun x => x.id == u) with
      | none => exact ⟨rfl, by simp⟩
      | some _ =>
        dsimp only
        by_cases hmf : missingRequired body = true
        · rw [if_pos hmf]; exact ⟨rfl, by simp⟩
        · rw [if_neg hmf]; exact ⟨rfl, by simp⟩
  · intro s sess interviewId questionId userAnswer
    unfold part001FollowUpPost
    cases sess with
    | none => exact ⟨rfl, by simp⟩
    | some u =>
      dsimp only
      by_cases hval : (!truthyInt (Option.map Int.ofNat questionId) ||
          !truthyStr userAnswer) = true
      · rw [if_pos hval]; exact ⟨rfl, by simp⟩
      · rw [if_neg hval]
        cases questionId with
        | none => exact ⟨rfl, by simp⟩
        | some x =>
          dsimp only
          cases s.questions.find?
              (fun q => q.id == x && q.hrInterviewId == interviewId) with
          | none => exact ⟨rfl, by simp⟩
          | some q =>
            dsimp only
            by_cases hcap :
                (decide (followUpCount s x ≥ MAX_FOLLOWUP_QUESTIONS)) = true
            · rw [if_pos hcap]; exact ⟨rfl, by simp⟩
            · rw [if_neg hcap]; exact ⟨rfl, by simp⟩
  · intro s sess interviewId questionId generateFollowUp
    unfold part001QuestionsGet
    cases sess with
    | none => rfl
    | some u =>
      dsimp only
      cases s.interviews.find? (fun i => i.id == interviewId) with
      | none => rfl
      | some i =>
        dsimp only
        cases questionId with
        | none => rfl
        | some x =>
          dsimp only
          cases s.questions.find? (fun q => q.hrInterviewId == i.id && q.id == x) with
          | none => rfl
          | some q =>
            dsimp only
            by_cases hgen : (generateFollowUp && decide
                ((s.followUps.filter (fun f => f.mainQuestionId == q.id)).length <
                  MAX_FOLLOWUP_QUESTIONS)) = true
            · rw [if_pos hgen]
              cases s.answers.find? (fun a => a.hrQuestionId == some q.id) with
              | none => rfl
              | some ua => rfl
            · rw [if_neg hgen]
  · intro s u interviewId qid i q ua hi hq hlt hans
    unfold part001QuestionsGet
    dsimp only
    rw [hi]
    dsimp only
    rw [hq]
    dsimp only
    rw [if_pos (by rw [Bool.true_and]; exact decide_eq_true hlt)]
    rw [hans]
  · intro s u body aiAnalysis qid mq hfu hqid hq0 hua hfind
    unfold processFollowUpQuestion
    dsimp only
    have hcond : ((!truthyInt (Option.map Int.ofNat body.followUpQuestionId) &&
        !truthyInt (Option.map Int.ofNat body.hrQuestionId)) ||
        !truthyStr body.userAnswer) = false := by
      rw [hfu, hqid, hua]
      simp [truthyInt, Int.ofNat_eq_zero, hq0]
    rw [if_neg (by rw [hcond]; exact Bool.false_ne_true)]
    rw [hfu]
    dsimp only
    rw [hqid]
    dsimp only
    rw [hfind]
  · intro s u body a2 qid mq e hqid hq0 hua hfind hex
    unfold processMainQuestion
    dsimp only
    have hcond : (!truthyInt (Option.map Int.ofNat body.hrQuestionId) ||
        !truthyStr body.userAnswer) = false := by
      rw [hqid, hua]
      simp [truthyInt, Int.ofNat_eq_zero, hq0]
    rw [if_neg (by rw [hcond]; exact Bool.false_ne_true)]
    rw [hqid]
    dsimp only
    rw [hfind]
    dsimp only
    rw [hex]
    dsimp only
    cases s.followUps.filter (fun f => f.mainQuestionId == qid) with
    | cons fu t => rfl
    | nil =>
      cases a2 with
      | none => rfl
      | some t => rfl

/-- Instantiations of the amended failure-handling claim: on concrete
stores the generating branch of the question GET and the on-the-fly
generation path of the PUT each answer 500 with the store unchanged. -/
theorem C3_failure_amended_witness :
    part001QuestionsGet exStoreAnswered (some "alice") 1 (some 1) true none =
      (⟨500, .err "Failed to fetch questions"⟩, exStoreAnswered) ∧
    processFollowUpQuestion exStore0 (some "alice")
      { hrQuestionId := some 1, followUpQuestionId := none,
        userAnswer := some "my answer", videoUrl := none } none (some "Score: 3") =
      (⟨500, .err "Failed to generate follow-up question"⟩, exStore0) :=
  ⟨C3_failure_amended.2.2.2.1 exStoreAnswered "alice" 1 1 iv1 q1 ansA
    (by decide) (by decide) (by decide) (by decide),
   C3_failure_amended.2.2.2.2.1 exStore0 "alice"
    { hrQuestionId := some 1, followUpQuestionId := none,
      userAnswer := some "my answer", videoUrl := none }
    (some "Score: 3") 1 q1 rfl rfl (by decide) (by decide) (by decide)⟩

/-- C4 as stated fails on the code: the question GET of part_001 checks no
ownership at all, so an authenticated caller who does not own the interview
receives status 200 together with the interview itself. -/
theorem C4_ownership_counterexample :
    iv1.userId ≠ "bob" ∧
    (part001QuestionsGet exStore0 (some "bob") 1 none false none).1 =
      ⟨200, .interviewData iv1⟩ :=
  ⟨by decide, by decide⟩

/-- C4 (amended): only the follow-up GET of route.ts answers a non-owner
with a bare 401 in both of its branches; the interview GET of part_000
filters by owner and answers 404, revealing nothing; and the question GET
of part_001 performs no ownership check, returning the interview to any
authenticated caller. -/
theorem C4_ownership_amended :
    (∀ s u fid mqid f owner,
      s.followUps.find? (fun x => x.id == fid) = some f →
      interviewOwnerOfQuestion s f.mainQuestionId = some owner → owner ≠ u →
      hrRoundFollowUpGet s (some u) (some fid) mqid =
        (⟨401, .err "Unauthorized"⟩, s)) ∧
    (∀ s u qid q iv,
      s.questions.find? (fun x => x.id == qid) = some q →
      s.interviews.find? (fun i => i.id == q.hrInterviewId) = some iv →
      iv.userId ≠ u →
      hrRoundFollowUpGet s (some u) none (some qid) =
        (⟨401, .err "Unauthorized"⟩, s)) ∧
    (∀ s u iid, (∀ i ∈ s.interviews, i.id = iid → i.userId ≠ u) →
      part000Get s (some u) (some iid) =
        (⟨404, .err "HR Interview not found"⟩, s)) ∧
    (∀ s u iid i ai, s.interviews.find? (fun x => x.id == iid) = some i →
      i.userId ≠ u →
      (part001QuestionsGet s (some u) iid none false ai).1 =
        ⟨200, .interviewData i⟩) := by
  refine ⟨?_, ?_, ?_, ?_⟩
  · intro s u fid mqid f owner hfind howner hneq
    unfold hrRoundFollowUpGet
    dsimp only
    rw [hfind]
    dsimp only
    rw [howner]
    dsimp only
    rw [if_neg (fun hc => hneq (beq_iff_eq.mp hc))]
  · intro s u qid q iv hq hiv hneq
    unfold hrRoundFollowUpGet
    dsimp only
    rw [hq]
    dsimp only
    rw [hiv]
    dsimp only
    rw [if_neg (fun hc => hneq (beq_iff_eq.mp hc))]
  · intro s u iid hall
    unfold part000Get
    dsimp only
    have hfind : s.interviews.find? (fun i => i.id == iid && i.userId == u) =
        none := by
      rw [List.find?_eq_none]
      intro i hi hp
      rw [Bool.and_eq_true, beq_iff_eq, beq_iff_eq] at hp
      exact hall i hi hp.1 hp.2
    rw [hfind]
  · intro s u iid i ai hfind hneq
    unfold part001QuestionsGet
    dsimp only
    rw [hfind]

/-- Instantiations of the amended ownership claim: the non-owner follow-up
GET is a bare 401 and the non-owner interview GET a bare 404. -/
theorem C4_ownership_amended_witness :
    hrRoundFollowUpGet exStoreTwoFUs (some "bob") (some 1) none =
      (⟨401, .err "Unauthorized"⟩, exStoreTwoFUs) ∧
    part000Get exStoreTwoFUs (some "bob") (some 1) =
      (⟨404, .err "HR Interview not found"⟩, exStoreTwoFUs) :=
  ⟨C4_ownership_amended.1 exStoreTwoFUs "bob" 1 none fuA "alice" (by decide)
    (by decide) (by decide),
   C4_ownership_amended.2.2.1 exStoreTwoFUs "bob" 1 (by decide)⟩

/-- C7: no operation ever removes or rewrites an existing interview,
main-question or follow-up row: every row of those three tables present
before a request is present unchanged afterwards.  In particular the
interview PATCH and DELETE never reach their write, because of the
un-awaited auth destructuring, so even the permitted deletion never
happens; answer rows are the only rows ever updated. -/
theorem C7_frame_no_mutation :
    (∀ s sess iid, recordsPreserved s (part000Get s sess iid).2) ∧
    (∀ s sess iid, recordsPreserved s (part000Delete s sess iid).2) ∧
    (∀ s sess body, recordsPreserved s (part000Post s sess body).2) ∧
    (∀ s sess iid patch, recordsPreserved s (part000Patch s sess iid patch).2) ∧
    (∀ s iid, recordsPreserved s (part001AnswersGet s iid).2) ∧
    (∀ s sess iv qid gen ai,
      recordsPreserved s (part001QuestionsGet s sess iv qid gen ai).2) ∧
    (∀ s sess iv qid ua ai,
      recordsPreserved s (part001FollowUpPost s sess iv qid ua ai).2) ∧
    (∀ s sess body ai, recordsPreserved s (hrRoundCreatePost s sess body ai).2) ∧
    (∀ s sess fid mqid, recordsPreserved s (hrRoundFollowUpGet s sess fid mqid).2) ∧
    (∀ s sess body, recordsPreserved s (hrRoundFollowUpPost s sess body).2) ∧
    (∀ s sess body, recordsPreserved s (hrRoundAnswerPost s sess body).2) ∧
    (∀ s sess aid patch, recordsPreserved s (hrRoundAnswerPatch s sess aid patch).2) ∧
    (∀ s sess body a1 a2,
      recordsPreserved s (processMainQuestion s sess body a1 a2).2) ∧
    (∀ s sess body ag aa,
      recordsPreserved s (processFollowUpQuestion s sess body ag aa).2) := by
  refine ⟨?_, ?_, ?_, ?_, ?_, ?_, ?_, ?_, ?_, ?_, ?_, ?_, ?_, ?_⟩
  · intro s sess iid; rw [part000Get_state]; exact recordsPreserved_refl s
  · intro s sess iid; rw [part000Delete_model]; exact recordsPreserved_refl s
  · intro s sess body; rw [part000Post_model]; exact recordsPreserved_refl s
  · intro s sess iid patch; rw [part000Patch_model]; exact recordsPreserved_refl s
  · intro s iid; rw [part001AnswersGet_state]; exact recordsPreserved_refl s
  · intro s sess iv qid gen ai; exact part001QuestionsGet_frame s sess iv qid gen ai
  · intro s sess iv qid ua ai; exact part001FollowUpPost_frame s sess iv qid ua ai
  · intro s sess body ai; exact hrRoundCreatePost_frame s sess body ai
  · intro s sess fid mqid; rw [hrRoundFollowUpGet_state]
    exact recordsPreserved_refl s
  · intro s sess body; rw [hrRoundFollowUpPost_model]; exact recordsPreserved_refl s
  · intro s sess body; rw [hrRoundAnswerPost_model]; exact recordsPreserved_refl s
  · intro s sess aid patch; rw [hrRoundAnswerPatch_model]
    exact recordsPreserved_refl s
  · intro s sess body a1 a2; exact processMainQuestion_frame s sess body a1 a2
  · intro s sess body ag aa; exact processFollowUpQuestion_frame s sess body ag aa

/-- The pre-existing question survives, unchanged, a cap-violating
follow-up-answer request. -/
theorem C7_frame_no_mutation_witness :
    q1 ∈ exStoreTwoFUs.questions ∧
    q1 ∈ ((processFollowUpQuestion exStoreTwoFUs (some "alice")
      { hrQuestionId := some 1, followUpQuestionId := none,
        userAnswer := some "my answer", videoUrl := none }
      (some "generated question") (some "Score: 4")).2).questions :=
  ⟨by decide,
   (C7_frame_no_mutation.2.2.2.2.2.2.2.2.2.2.2.2.2 exStoreTwoFUs (some "alice")
     { hrQuestionId := some 1, followUpQuestionId := none,
       userAnswer := some "my answer", videoUrl := none }
     (some "generated question") (some "Score: 4")).2.1 q1 (by decide)⟩

/-- C8 as stated fails on the code for the part_000 creation POST: a
request with a missing required field is answered 401, not 400, because the
handler destructures auth() without awaiting it and never validates
fields. -/
theorem C8_missing_fields_counterexample :
    (part000Post exStore0 (some "alice")
      { jobPosition := none, jobDescription := some "desc",
        jobExperience := some "3", skills := none,
        difficultyLevel := some "Easy", resumeUrl := none,
        passScore := none }).1.status = 401 ∧
    (part000Post exStore0 (some "alice")
      { jobPosition := none, jobDescription := some "desc",
        jobExperience := some "3", skills := none,
        difficultyLevel := some "Easy", resumeUrl := none,
        passScore := none }).1.status ≠ 400 :=
  ⟨by decide, by decide⟩

/-- C8 (amended): the creation POST of route.ts answers 400 and persists
nothing whenever a required field is missing (whether or not the caller has
a user row); the creation POST of part_000 answers 401 on every request
and persists nothing. -/
theorem C8_missing_fields_amended :
    (∀ s u body ai, missingRequired body = true →
      (hrRoundCreatePost s (some u) body ai).1.status = 400 ∧
      (hrRoundCreatePost s (some u) body ai).2 = s) ∧
    (∀ s sess body, (part000Post s sess body).1.status = 401 ∧
      (part000Post s sess body).2 = s) := by
  refine ⟨?_, ?_⟩
  · intro s u body ai hmf
    unfold hrRoundCreatePost
    dsimp only
    cases s.users.find? (fun x => x.id == u) with
    | none => exact ⟨rfl, rfl⟩
    | some _ =>
      dsimp only
      rw [if_pos hmf]
      exact ⟨rfl, rfl⟩
  · intro s sess body
    rw [part000Post_model]
    exact ⟨rfl, rfl⟩

/-- A request missing jobPosition is a 400 on the live creation POST. -/
theorem C8_missing_fields_amended_witness :
    (hrRoundCreatePost exStore0 (some "alice")
      { jobPosition := none, jobDescription := some "desc",
        jobExperience := some "3", skills := none,
        difficultyLevel := some "Easy", totalQuestions := some 5,
        resumeUrl := none } none).1.status = 400 :=
  (C8_missing_fields_amended.1 exStore0 "alice"
    { jobPosition := none, jobDescription := some "desc",
      jobExperience := some "3", skills := none,
      difficultyLevel := some "Easy", totalQuestions := some 5,
      resumeUrl := none } none (by decide)).1

/-- C9: the four handlers that destructure auth() without awaiting it
observe an undefined userId on every request, answer 401 Unauthorized and
leave the store untouched. -/
theorem C9_unawaited_auth :
    (∀ s sess iid, part000Delete s sess iid = (⟨401, .err "Unauthorized"⟩, s)) ∧
    (∀ s sess body, part000Post s sess body = (⟨401, .err "Unauthorized"⟩, s)) ∧
    (∀ s sess body,
      hrRoundFollowUpPost s sess body = (⟨401, .err "Unauthorized"⟩, s)) ∧
    (∀ s sess aid patch,
      hrRoundAnswerPatch s sess aid patch = (⟨401, .err "Unauthorized"⟩, s)) :=
  ⟨part000Delete_model, part000Post_model, hrRoundFollowUpPost_model,
   hrRoundAnswerPatch_model⟩

end HRApp
